import Mathlib

/-!
# gpio-fch: GPIO interface for the AMD Fusion Controller Hub

A shallow embedding of `package/kernel/gpio-fch/src/gpio-fch.c`.

* Machine integers are natural numbers reduced explicitly (`% 2 ^ 8` for `u8`,
  `% 2 ^ 32` for `u32` and `unsigned`).
* The kernel and the hardware are an explicit state `Sys` that is threaded through every
  function.  Each call that leaves the driver (port I/O, MMIO, resource reservation, gpiolib
  registration, the spinlock) appends one `Event` to `Sys.trace`, in program order.
* The outcomes of the fallible kernel services (`request_region`, `request_mem_region`,
  `ioremap`, `gpiochip_add`) are fields of `Sys`, so every theorem quantifies over them.
* `dev_err` / `dev_info` only print and are left out.
-/

namespace GpioFch

/-! ## Constants -/

/-- Index port of the SB8x0 power-management register pair. -/
def SB800_IO_PM_INDEX_REG : Nat := 0xcd6

/-- Data port of the SB8x0 power-management register pair. -/
def SB800_IO_PM_DATA_REG : Nat := 0xcd7

/-- Number of I/O ports reserved during discovery. -/
def SB800_IO_PM_SIZE : Nat := SB800_IO_PM_DATA_REG - SB800_IO_PM_INDEX_REG + 1

/-- PM register holding the FCH MMIO base address. -/
def SB800_PM_ACPI_MMIO_EN : Nat := 0x24

/-- GPIO offset from the FCH MMIO base address. -/
def FCH_GPIO_SPACE_OFFSET : Nat := 0x100

/-- GPIO MMIO space size. -/
def FCH_GPIO_SPACE_SIZE : Nat := 0x100

/-- Linux errno value of `EBUSY`. -/
def EBUSY : Int := 16

/-- Linux errno value of `ENOMEM`. -/
def ENOMEM : Int := 12

/-- The kernel macro `BIT(nr)`, that is `1UL << nr`. -/
def BIT (nr : Nat) : Nat := 1 <<< nr

/-- Bitwise complement `~x` of an `unsigned long` (64 bits). -/
def not_ulong (x : Nat) : Nat := (2 ^ 64 - 1) - x % 2 ^ 64

/-! ## Data model -/

/-- The fields of `struct gpio_chip` the driver sets and reads: the first global line number
of the bank and its number of lines.  `base` is an `int` in C; the three banks of this driver
declare non-negative bases. -/
structure gpio_chip where
  base : Nat
  ngpio : Nat
  deriving DecidableEq, Repr

/-- Bank at base 0. -/
def fch_gpio_chip0 : gpio_chip := { base := 0, ngpio := 68 }

/-- Bank at base 128. -/
def fch_gpio_chip128 : gpio_chip := { base := 128, ngpio := 23 }

/-- Bank at base 160. -/
def fch_gpio_chip160 : gpio_chip := { base := 160, ngpio := 69 }

/-- One call that leaves the driver, with its arguments in the order of the C call and, where
the call returns something, the value it returned. -/
inductive Event where
  | request_region (start n : Nat) (ok : Bool)
  | release_region (start n : Nat)
  | outb (value port : Nat)
  | inb (port value : Nat)
  | request_mem_region (start n : Nat) (ok : Bool)
  | release_mem_region (start n : Nat)
  | ioremap (start n ptr : Nat)
  | iounmap (ptr : Nat)
  | gpiochip_add (gc : gpio_chip) (ret : Int)
  | gpiochip_remove (gc : gpio_chip)
  | spin_lock
  | spin_unlock
  | ioread8 (addr value : Nat)
  | iowrite8 (value addr : Nat)
  deriving DecidableEq, Repr

/-- Kernel, hardware and driver state. -/
structure Sys where
  /-- Whether `request_region` succeeds. -/
  request_region_ok : Bool
  /-- Whether `request_mem_region` succeeds. -/
  request_mem_region_ok : Bool
  /-- The pointer `ioremap` returns; `0` is `NULL`. -/
  ioremap_ptr : Nat
  /-- The value `gpiochip_add` returns for each chip. -/
  gpiochip_add_ret : gpio_chip → Int
  /-- The PM register file behind the data port, by index value. -/
  pm_data : Nat → Nat
  /-- The value last written to the index port. -/
  pm_index : Nat
  /-- Byte-addressed memory reached through `ioread8` / `iowrite8`. -/
  mem : Nat → Nat
  /-- The driver variable `static void __iomem *gpio_ba`. -/
  gpio_ba : Nat
  /-- The driver variable `static u32 acpimmioaddr`. -/
  acpimmioaddr : Nat
  /-- Every call made so far, oldest first. -/
  trace : List Event

/-- Append one event to the trace. -/
def emit (e : Event) (s : Sys) : Sys := { s with trace := s.trace ++ [e] }

/-! ## Kernel services -/

/-- The call `outb(value, port)`: the value is an `unsigned char`; a write to the index port
selects the PM register. -/
def outb (value port : Nat) (s : Sys) : Sys :=
  let v := value % 2 ^ 8
  emit (Event.outb v port)
    { s with pm_index := if port = SB800_IO_PM_INDEX_REG then v else s.pm_index }

/-- The call `inb(port)`: the data port answers with the byte of the selected PM register; any
other port floats high. -/
def inb (port : Nat) (s : Sys) : Nat × Sys :=
  let v := if port = SB800_IO_PM_DATA_REG then s.pm_data s.pm_index % 2 ^ 8 else 0xff
  (v, emit (Event.inb port v) s)

/-- The call `ioread8(addr)`. -/
def ioread8 (addr : Nat) (s : Sys) : Nat × Sys :=
  let v := s.mem addr % 2 ^ 8
  (v, emit (Event.ioread8 addr v) s)

/-- The call `iowrite8(value, addr)` on a register that stores what is written. -/
def iowrite8 (value addr : Nat) (s : Sys) : Sys :=
  let v := value % 2 ^ 8
  emit (Event.iowrite8 v addr) { s with mem := fun a => if a = addr then v else s.mem a }

/-- The call `request_region(start, n, name)`. -/
def request_region (start n : Nat) (s : Sys) : Bool × Sys :=
  (s.request_region_ok, emit (Event.request_region start n s.request_region_ok) s)

/-- The call `release_region(start, n)`. -/
def release_region (start n : Nat) (s : Sys) : Sys :=
  emit (Event.release_region start n) s

/-- The call `request_mem_region(start, n, name)`. -/
def request_mem_region (start n : Nat) (s : Sys) : Bool × Sys :=
  (s.request_mem_region_ok, emit (Event.request_mem_region start n s.request_mem_region_ok) s)

/-- The call `release_mem_region(start, n)`. -/
def release_mem_region (start n : Nat) (s : Sys) : Sys :=
  emit (Event.release_mem_region start n) s

/-- The call `ioremap(start, n)`. -/
def ioremap (start n : Nat) (s : Sys) : Nat × Sys :=
  (s.ioremap_ptr, emit (Event.ioremap start n s.ioremap_ptr) s)

/-- The call `iounmap(ptr)`. -/
def iounmap (ptr : Nat) (s : Sys) : Sys := emit (Event.iounmap ptr) s

/-- The call `gpiochip_add(gc)`. -/
def gpiochip_add (gc : gpio_chip) (s : Sys) : Int × Sys :=
  (s.gpiochip_add_ret gc, emit (Event.gpiochip_add gc (s.gpiochip_add_ret gc)) s)

/-- The call `gpiochip_remove(gc)`; the driver discards its result. -/
def gpiochip_remove (gc : gpio_chip) (s : Sys) : Sys := emit (Event.gpiochip_remove gc) s

/-- The call `spin_lock(&gpio_lock)`. -/
def spin_lock (s : Sys) : Sys := emit Event.spin_lock s

/-- The call `spin_unlock(&gpio_lock)`. -/
def spin_unlock (s : Sys) : Sys := emit Event.spin_unlock s

/-! ## The driver -/

/-- Source function `u32 read_pm_reg(u8 addr)`. -/
def read_pm_reg (addr : Nat) (s : Sys) : Nat × Sys :=
  let addr := addr % 2 ^ 8
  let s := outb (addr + 3) SB800_IO_PM_INDEX_REG s
  let (d, s) := inb SB800_IO_PM_DATA_REG s
  let res := d
  let res := (res <<< 8) % 2 ^ 32
  let s := outb (addr + 2) SB800_IO_PM_INDEX_REG s
  let (d, s) := inb SB800_IO_PM_DATA_REG s
  let res := (res + d) % 2 ^ 32
  let res := (res <<< 8) % 2 ^ 32
  let s := outb (addr + 1) SB800_IO_PM_INDEX_REG s
  let (d, s) := inb SB800_IO_PM_DATA_REG s
  let res := (res + d) % 2 ^ 32
  let res := (res <<< 8) % 2 ^ 32
  (res, s)

/-- Source function `static int gpio_fch_direction_in(struct gpio_chip *gc, unsigned gpio_num)`. -/
def gpio_fch_direction_in (gc : gpio_chip) (gpio_num : Nat) (s : Sys) : Int × Sys :=
  let gpio_num := (gpio_num + gc.base) % 2 ^ 32
  let s := spin_lock s
  let (curr_state, s) := ioread8 (s.gpio_ba + gpio_num) s
  let s :=
    if curr_state &&& BIT 5 = 0 then
      iowrite8 (curr_state ||| BIT 5) (s.gpio_ba + gpio_num) s
    else s
  let s := spin_unlock s
  (0, s)

/-- Source function `static int gpio_fch_direction_out(struct gpio_chip *gc, unsigned gpio_num, int val)`;
`val` is not used by the function. -/
def gpio_fch_direction_out (gc : gpio_chip) (gpio_num : Nat) (_val : Int) (s : Sys) :
    Int × Sys :=
  let gpio_num := (gpio_num + gc.base) % 2 ^ 32
  let s := spin_lock s
  let (curr_state, s) := ioread8 (s.gpio_ba + gpio_num) s
  let s :=
    if curr_state &&& BIT 5 ≠ 0 then
      iowrite8 (curr_state &&& not_ulong (BIT 5)) (s.gpio_ba + gpio_num) s
    else s
  let s := spin_unlock s
  (0, s)

/-- Source function `static int gpio_fch_get(struct gpio_chip *gc, unsigned gpio_num)`. -/
def gpio_fch_get (gc : gpio_chip) (gpio_num : Nat) (s : Sys) : Int × Sys :=
  let gpio_num := (gpio_num + gc.base) % 2 ^ 32
  let (curr_state, s) := ioread8 (s.gpio_ba + gpio_num) s
  let bit := if curr_state &&& BIT 5 ≠ 0 then 7 else 6
  let res : Int := if curr_state &&& BIT bit ≠ 0 then 1 else 0
  (res, s)

/-- Source function `static void gpio_fch_set(struct gpio_chip *gc, unsigned gpio_num, int val)`. -/
def gpio_fch_set (gc : gpio_chip) (gpio_num : Nat) (val : Int) (s : Sys) : Sys :=
  let gpio_num := (gpio_num + gc.base) % 2 ^ 32
  let s := spin_lock s
  let (curr_state, s) := ioread8 (s.gpio_ba + gpio_num) s
  let (curr_state, s) :=
    if curr_state &&& BIT 5 ≠ 0 then
      let curr_state := (curr_state &&& not_ulong (BIT 5)) % 2 ^ 8
      (curr_state, iowrite8 curr_state (s.gpio_ba + gpio_num) s)
    else (curr_state, s)
  let s :=
    if val ≠ 0 then
      iowrite8 (curr_state ||| BIT 6) (s.gpio_ba + gpio_num) s
    else
      iowrite8 (curr_state &&& not_ulong (BIT 6)) (s.gpio_ba + gpio_num) s
  spin_unlock s

/-- The label `err_no_ioremap:` of `gpio_fch_probe` and what follows it. -/
def err_no_ioremap (ret : Int) (s : Sys) : Int × Sys :=
  let s := release_mem_region ((s.acpimmioaddr + FCH_GPIO_SPACE_OFFSET) % 2 ^ 32)
    FCH_GPIO_SPACE_SIZE s
  (ret, s)

/-- The label `err_no_gpiochip0_add:`, falling through to `err_no_ioremap:`. -/
def err_no_gpiochip0_add (ret : Int) (s : Sys) : Int × Sys :=
  let s := iounmap s.gpio_ba s
  err_no_ioremap ret s

/-- The label `err_no_gpiochip128_add:`, falling through to `err_no_gpiochip0_add:`. -/
def err_no_gpiochip128_add (ret : Int) (s : Sys) : Int × Sys :=
  let s := gpiochip_remove fch_gpio_chip0 s
  err_no_gpiochip0_add ret s

/-- The label `err_no_gpiochip160_add:`, falling through to `err_no_gpiochip128_add:`. -/
def err_no_gpiochip160_add (ret : Int) (s : Sys) : Int × Sys :=
  let s := gpiochip_remove fch_gpio_chip128 s
  err_no_gpiochip128_add ret s

/-- Source function `static int gpio_fch_probe(struct pci_dev *pdev, const struct pci_device_id *id)`. -/
def gpio_fch_probe (s : Sys) : Int × Sys :=
  let (ok, s) := request_region SB800_IO_PM_INDEX_REG SB800_IO_PM_SIZE s
  if !ok then (-EBUSY, s) else
  let (r, s) := read_pm_reg SB800_PM_ACPI_MMIO_EN s
  let s := { s with acpimmioaddr := r &&& 0xFFFFFF00 }
  let s := release_region SB800_IO_PM_INDEX_REG SB800_IO_PM_SIZE s
  let (ok, s) := request_mem_region ((s.acpimmioaddr + FCH_GPIO_SPACE_OFFSET) % 2 ^ 32)
    FCH_GPIO_SPACE_SIZE s
  if !ok then (-EBUSY, s) else
  let (p, s) := ioremap ((s.acpimmioaddr + FCH_GPIO_SPACE_OFFSET) % 2 ^ 32)
    FCH_GPIO_SPACE_SIZE s
  let s := { s with gpio_ba := p }
  if s.gpio_ba = 0 then err_no_ioremap (-ENOMEM) s else
  let (ret, s) := gpiochip_add fch_gpio_chip0 s
  if ret < 0 then err_no_gpiochip0_add ret s else
  let (ret, s) := gpiochip_add fch_gpio_chip128 s
  if ret < 0 then err_no_gpiochip128_add ret s else
  let (ret, s) := gpiochip_add fch_gpio_chip160 s
  if ret < 0 then err_no_gpiochip160_add ret s else
  (0, s)

/-- Source function `static void gpio_fch_remove(struct pci_dev *pdev)`. -/
def gpio_fch_remove (s : Sys) : Sys :=
  let s := gpiochip_remove fch_gpio_chip160 s
  let s := gpiochip_remove fch_gpio_chip128 s
  let s := gpiochip_remove fch_gpio_chip0 s
  let s := iounmap s.gpio_ba s
  release_mem_region ((s.acpimmioaddr + FCH_GPIO_SPACE_OFFSET) % 2 ^ 32)
    FCH_GPIO_SPACE_SIZE s

/-! ## Observations used to state the properties -/

/-- The absolute register offset the four line operations compute for line `gpio_num` of
bank `gc`: the value of `gpio_num` after `gpio_num += gc->base` in `unsigned` arithmetic. -/
def gpio_offset (gc : gpio_chip) (gpio_num : Nat) : Nat :=
  (gpio_num + gc.base) % 2 ^ 32

/-- The address `gpio_ba + gpio_num` the four line operations access for line `gpio_num` of
bank `gc`. -/
def reg_addr (s : Sys) (gc : gpio_chip) (gpio_num : Nat) : Nat :=
  s.gpio_ba + gpio_offset gc gpio_num

/-- The register byte of line `gpio_num` of bank `gc`, as `ioread8` returns it. -/
def reg_byte (s : Sys) (gc : gpio_chip) (gpio_num : Nat) : Nat :=
  s.mem (reg_addr s gc gpio_num) % 2 ^ 8

/-- The events a run from `s` to `t` appended to the trace. -/
def new_events (s t : Sys) : List Event := t.trace.drop s.trace.length

/-- The addresses read or written through MMIO by a list of events, in order. -/
def touched : List Event → List Nat
  | [] => []
  | Event.ioread8 addr _ :: es => addr :: touched es
  | Event.iowrite8 _ addr :: es => addr :: touched es
  | _ :: es => touched es

/-- The `(value, addr)` pairs of the register writes in a list of events, in order. -/
def writes : List Event → List (Nat × Nat)
  | [] => []
  | Event.iowrite8 value addr :: es => (value, addr) :: writes es
  | _ :: es => writes es

/-- The three banks in the order `gpio_fch_probe` registers them. -/
def banks : List gpio_chip := [fch_gpio_chip0, fch_gpio_chip128, fch_gpio_chip160]

/-- One level write: the bank, the local index and the level passed to `gpio_fch_set`. -/
structure LevelWrite where
  gc : gpio_chip
  gpio_num : Nat
  val : Int

/-- A sequence of `gpio_fch_set` calls, first element first. -/
def run_sets : List LevelWrite → Sys → Sys
  | [], s => s
  | w :: ws, s => run_sets ws (gpio_fch_set w.gc w.gpio_num w.val s)

/-- The level of the last write of the sequence that addressed absolute offset `off`, if
there is one. -/
def last_level : List LevelWrite → Nat → Option Int
  | [], _ => none
  | w :: ws, off =>
    match last_level ws off with
    | some v => some v
    | none => if gpio_offset w.gc w.gpio_num = off then some w.val else none

/-- What the driver can hold: the I/O port range, the physical memory region, the mapping and
a registered bank. -/
inductive Resource where
  | io_region (start n : Nat)
  | mem_region (start n : Nat)
  | mapping (ptr : Nat)
  | bank (gc : gpio_chip)
  deriving DecidableEq, Repr

/-- The resources acquired by a list of events, in order; a failed call acquires nothing. -/
def acquisitions : List Event → List Resource
  | [] => []
  | Event.request_region start n true :: es => Resource.io_region start n :: acquisitions es
  | Event.request_mem_region start n true :: es => Resource.mem_region start n :: acquisitions es
  | Event.ioremap _ _ ptr :: es =>
    if ptr = 0 then acquisitions es else Resource.mapping ptr :: acquisitions es
  | Event.gpiochip_add gc ret :: es =>
    if ret < 0 then acquisitions es else Resource.bank gc :: acquisitions es
  | _ :: es => acquisitions es

/-- The resources released by a list of events, in order. -/
def releases : List Event → List Resource
  | [] => []
  | Event.release_region start n :: es => Resource.io_region start n :: releases es
  | Event.release_mem_region start n :: es => Resource.mem_region start n :: releases es
  | Event.iounmap ptr :: es => Resource.mapping ptr :: releases es
  | Event.gpiochip_remove gc :: es => Resource.bank gc :: releases es
  | _ :: es => releases es

/-- The events of the discovery phase of a probe whose port reservation succeeds: reserve the
two ports, select and read PM registers 0x27, 0x26, 0x25, release the ports. -/
def discovery_events (s : Sys) : List Event :=
  [Event.request_region 0xcd6 2 true,
    Event.outb 0x27 0xcd6, Event.inb 0xcd7 (s.pm_data 0x27 % 2 ^ 8),
    Event.outb 0x26 0xcd6, Event.inb 0xcd7 (s.pm_data 0x26 % 2 ^ 8),
    Event.outb 0x25 0xcd6, Event.inb 0xcd7 (s.pm_data 0x25 % 2 ^ 8),
    Event.release_region 0xcd6 2]

/-- The physical start address of the GPIO register window for the PM register contents of
`s`: PM registers 0x27, 0x26, 0x25 are bits 31..8 of the base, the low byte is zero, and the
window starts 0x100 above the base (in 32-bit arithmetic). -/
def gpio_space_start (s : Sys) : Nat :=
  ((s.pm_data 0x27 % 2 ^ 8) * 2 ^ 24 + (s.pm_data 0x26 % 2 ^ 8) * 2 ^ 16 +
    (s.pm_data 0x25 % 2 ^ 8) * 2 ^ 8 + 0x100) % 2 ^ 32

/-! ## Concrete machines -/

/-- A machine on which every kernel service succeeds; PM registers 0x25, 0x26, 0x27 hold
0x12, 0x34, 0x56 and every register byte holds 0xA0 (bits 7 and 5 set). -/
def sys_ok : Sys :=
  { request_region_ok := true
    request_mem_region_ok := true
    ioremap_ptr := 0x4000
    gpiochip_add_ret := fun _ => 0
    pm_data := fun i => if i = 0x25 then 0x12 else if i = 0x26 then 0x34
      else if i = 0x27 then 0x56 else 0
    pm_index := 0
    mem := fun _ => 0xA0
    gpio_ba := 0x4000
    acpimmioaddr := 0
    trace := [] }

/-- The machine `sys_ok`, except that `gpiochip_add` fails with `-16` for the bank at
base 160. -/
def sys_fail160 : Sys :=
  { sys_ok with gpiochip_add_ret := fun gc => if gc.base = 160 then -16 else 0 }

/-- The machine `sys_ok`, except that the I/O ports are already reserved. -/
def sys_io_busy : Sys := { sys_ok with request_region_ok := false }

/-- The machine `sys_ok`, except that the memory region is already reserved. -/
def sys_mem_busy : Sys := { sys_ok with request_mem_region_ok := false }

/-- The machine `sys_ok`, except that `ioremap` returns `NULL`. -/
def sys_no_map : Sys := { sys_ok with ioremap_ptr := 0 }

/-! ## Facts about single bytes -/

set_option maxRecDepth 100000 in
theorem byte_test_bits : ∀ b < 256,
    ((b &&& BIT 5 = 0) ↔ b.testBit 5 = false) ∧
    ((b &&& BIT 6 = 0) ↔ b.testBit 6 = false) ∧
    ((b &&& BIT 7 = 0) ↔ b.testBit 7 = false) := by
  decide

set_option maxRecDepth 100000 in
theorem byte_set_bit5 : ∀ b < 256, ∀ k < 8,
    ((b ||| BIT 5) % 2 ^ 8).testBit k = (decide (k = 5) || b.testBit k) := by
  decide

set_option maxRecDepth 100000 in
theorem byte_clear_bit5 : ∀ b < 256, ∀ k < 8,
    ((b &&& not_ulong (BIT 5)) % 2 ^ 8).testBit k = (decide (k ≠ 5) && b.testBit k) := by
  decide

set_option maxRecDepth 100000 in
theorem byte_set_bit6 : ∀ b < 256, ∀ k < 8,
    ((b ||| BIT 6) % 2 ^ 8).testBit k = (decide (k = 6) || b.testBit k) := by
  decide

set_option maxRecDepth 100000 in
theorem byte_clear_bit6 : ∀ b < 256, ∀ k < 8,
    ((b &&& not_ulong (BIT 6)) % 2 ^ 8).testBit k = (decide (k ≠ 6) && b.testBit k) := by
  decide

theorem byte_high_bit (w k : Nat) (hk : 8 ≤ k) : (w % 2 ^ 8).testBit k = false := by
  rw [Nat.testBit_mod_two_pow]
  simp only [Bool.and_eq_false_imp, decide_eq_true_eq]
  omega

theorem byte_lt (w : Nat) : w % 2 ^ 8 < 256 := by omega

theorem byte_mod (w : Nat) : w % 2 ^ 8 % 2 ^ 8 = w % 2 ^ 8 := by omega

theorem lt_byte_high_bit (b k : Nat) (hb : b < 256) (hk : 8 ≤ k) : b.testBit k = false := by
  have h := byte_high_bit b k hk
  rwa [Nat.mod_eq_of_lt (by omega)] at h

theorem set_bit5_bits (b : Nat) (hb : b < 256) (k : Nat) :
    ((b ||| BIT 5) % 2 ^ 8).testBit k = (if k = 5 then true else b.testBit k) := by
  by_cases hk : k < 8
  · rw [byte_set_bit5 b hb k hk]
    by_cases h : k = 5 <;> simp [h]
  · rw [byte_high_bit _ _ (by omega), lt_byte_high_bit b k hb (by omega)]
    have : k ≠ 5 := by omega
    simp [this]

theorem clear_bit5_bits (b : Nat) (hb : b < 256) (k : Nat) :
    ((b &&& not_ulong (BIT 5)) % 2 ^ 8).testBit k = (if k = 5 then false else b.testBit k) := by
  by_cases hk : k < 8
  · rw [byte_clear_bit5 b hb k hk]
    by_cases h : k = 5 <;> simp [h]
  · rw [byte_high_bit _ _ (by omega), lt_byte_high_bit b k hb (by omega)]
    simp

theorem set_bit6_bits (b : Nat) (hb : b < 256) (k : Nat) :
    ((b ||| BIT 6) % 2 ^ 8).testBit k = (if k = 6 then true else b.testBit k) := by
  by_cases hk : k < 8
  · rw [byte_set_bit6 b hb k hk]
    by_cases h : k = 6 <;> simp [h]
  · rw [byte_high_bit _ _ (by omega), lt_byte_high_bit b k hb (by omega)]
    have : k ≠ 6 := by omega
    simp [this]

theorem clear_bit6_bits (b : Nat) (hb : b < 256) (k : Nat) :
    ((b &&& not_ulong (BIT 6)) % 2 ^ 8).testBit k = (if k = 6 then false else b.testBit k) := by
  by_cases hk : k < 8
  · rw [byte_clear_bit6 b hb k hk]
    by_cases h : k = 6 <;> simp [h]
  · rw [byte_high_bit _ _ (by omega), lt_byte_high_bit b k hb (by omega)]
    simp

theorem reg_bit5 (s : Sys) (gc : gpio_chip) (n : Nat) :
    (reg_byte s gc n &&& BIT 5 = 0) ↔ (reg_byte s gc n).testBit 5 = false :=
  (byte_test_bits _ (byte_lt _)).1

theorem reg_bit6 (s : Sys) (gc : gpio_chip) (n : Nat) :
    (reg_byte s gc n &&& BIT 6 = 0) ↔ (reg_byte s gc n).testBit 6 = false :=
  (byte_test_bits _ (byte_lt _)).2.1

theorem reg_bit7 (s : Sys) (gc : gpio_chip) (n : Nat) :
    (reg_byte s gc n &&& BIT 7 = 0) ↔ (reg_byte s gc n).testBit 7 = false :=
  (byte_test_bits _ (byte_lt _)).2.2

/-! ## The line operations, unfolded by the direction bit of the register byte -/

theorem get_unfold (gc : gpio_chip) (n : Nat) (s : Sys) :
    gpio_fch_get gc n s =
      ((if reg_byte s gc n &&& BIT (if reg_byte s gc n &&& BIT 5 ≠ 0 then 7 else 6) ≠ 0
          then 1 else 0),
        emit (Event.ioread8 (reg_addr s gc n) (reg_byte s gc n)) s) := rfl

theorem get_value (gc : gpio_chip) (n : Nat) (s : Sys) :
    (gpio_fch_get gc n s).1 =
        (if (reg_byte s gc n).testBit 5
          then (if (reg_byte s gc n).testBit 7 then 1 else 0)
          else (if (reg_byte s gc n).testBit 6 then 1 else 0)) := by
  rw [get_unfold]
  cases h5 : (reg_byte s gc n).testBit 5 <;> cases h6 : (reg_byte s gc n).testBit 6 <;>
    cases h7 : (reg_byte s gc n).testBit 7 <;>
    simp [reg_bit5, reg_bit6, reg_bit7, h5, h6, h7]

theorem set_of_output (gc : gpio_chip) (n : Nat) (val : Int) (s : Sys)
    (h : (reg_byte s gc n).testBit 5 = false) :
    gpio_fch_set gc n val s =
      spin_unlock
        (iowrite8
          (if val ≠ 0 then reg_byte s gc n ||| BIT 6 else reg_byte s gc n &&& not_ulong (BIT 6))
          (reg_addr s gc n)
          (emit (Event.ioread8 (reg_addr s gc n) (reg_byte s gc n)) (spin_lock s))) := by
  have h5 := (reg_bit5 s gc n).2 h
  unfold gpio_fch_set
  by_cases hv : val = 0 <;>
    simp [ioread8, spin_lock, emit, reg_byte, reg_addr, gpio_offset, iowrite8] at h5 ⊢ <;> simp [h5, hv]

theorem set_of_input (gc : gpio_chip) (n : Nat) (val : Int) (s : Sys)
    (h : (reg_byte s gc n).testBit 5 = true) :
    gpio_fch_set gc n val s =
      spin_unlock
        (iowrite8
          (if val ≠ 0 then (reg_byte s gc n &&& not_ulong (BIT 5)) % 2 ^ 8 ||| BIT 6
            else (reg_byte s gc n &&& not_ulong (BIT 5)) % 2 ^ 8 &&& not_ulong (BIT 6))
          (reg_addr s gc n)
          (iowrite8 ((reg_byte s gc n &&& not_ulong (BIT 5)) % 2 ^ 8) (reg_addr s gc n)
            (emit (Event.ioread8 (reg_addr s gc n) (reg_byte s gc n)) (spin_lock s)))) := by
  have h5 : ¬ (reg_byte s gc n &&& BIT 5 = 0) := fun e => by
    rw [(reg_bit5 s gc n).1 e] at h; exact Bool.noConfusion h
  unfold gpio_fch_set
  by_cases hv : val = 0 <;>
    simp [ioread8, spin_lock, emit, reg_byte, reg_addr, gpio_offset, iowrite8] at h5 ⊢ <;> simp [h5, hv]

theorem direction_in_unfold (gc : gpio_chip) (n : Nat) (s : Sys) :
    gpio_fch_direction_in gc n s =
      (0, spin_unlock
        (if (reg_byte s gc n).testBit 5 = false
          then iowrite8 (reg_byte s gc n ||| BIT 5) (reg_addr s gc n)
            (emit (Event.ioread8 (reg_addr s gc n) (reg_byte s gc n)) (spin_lock s))
          else emit (Event.ioread8 (reg_addr s gc n) (reg_byte s gc n)) (spin_lock s))) := by
  have h5 := reg_bit5 s gc n
  unfold gpio_fch_direction_in
  by_cases h : (reg_byte s gc n).testBit 5 = false
  · have e := h5.2 h
    simp [ioread8, spin_lock, emit, reg_byte, reg_addr, gpio_offset, iowrite8] at e h ⊢
    simp [e, h]
  · have e : ¬ (reg_byte s gc n &&& BIT 5 = 0) := fun e => h (h5.1 e)
    simp [ioread8, spin_lock, emit, reg_byte, reg_addr, gpio_offset, iowrite8] at e h ⊢
    simp [e, h]

theorem direction_out_unfold (gc : gpio_chip) (n : Nat) (val : Int) (s : Sys) :
    gpio_fch_direction_out gc n val s =
      (0, spin_unlock
        (if (reg_byte s gc n).testBit 5 = true
          then iowrite8 (reg_byte s gc n &&& not_ulong (BIT 5)) (reg_addr s gc n)
            (emit (Event.ioread8 (reg_addr s gc n) (reg_byte s gc n)) (spin_lock s))
          else emit (Event.ioread8 (reg_addr s gc n) (reg_byte s gc n)) (spin_lock s))) := by
  have h5 := reg_bit5 s gc n
  unfold gpio_fch_direction_out
  by_cases h : (reg_byte s gc n).testBit 5 = false
  · have e := h5.2 h
    simp [ioread8, spin_lock, emit, reg_byte, reg_addr, gpio_offset, iowrite8] at e h ⊢
    simp [e, h]
  · have e : ¬ (reg_byte s gc n &&& BIT 5 = 0) := fun e => h (h5.1 e)
    simp [ioread8, spin_lock, emit, reg_byte, reg_addr, gpio_offset, iowrite8] at e h ⊢
    simp [e, h]

/-- The byte `gpio_fch_set` leaves in `curr_state` before the level write. -/
theorem set_curr_state_bits (b : Nat) (hb : b < 256) (k : Nat) :
    (if b.testBit 5 = true then (b &&& not_ulong (BIT 5)) % 2 ^ 8 else b).testBit k =
      (if k = 5 then false else b.testBit k) := by
  by_cases h : b.testBit 5 = true
  · rw [if_pos h, clear_bit5_bits b hb k]
  · rw [if_neg h]
    by_cases hk : k = 5
    · subst hk; simpa using h
    · simp [hk]

theorem set_curr_state_lt (b : Nat) (hb : b < 256) :
    (if b.testBit 5 = true then (b &&& not_ulong (BIT 5)) % 2 ^ 8 else b) < 256 := by
  split
  · exact byte_lt _
  · exact hb

theorem set_level_bits (c : Nat) (hc : c < 256) (val : Int) (k : Nat) :
    ((if val ≠ 0 then c ||| BIT 6 else c &&& not_ulong (BIT 6)) % 2 ^ 8).testBit k =
      (if k = 6 then decide (val ≠ 0) else c.testBit k) := by
  by_cases hv : val = 0
  · simp only [hv, ne_eq, not_true_eq_false, if_false, decide_False]
    exact clear_bit6_bits c hc k
  · simp only [hv, ne_eq, not_false_eq_true, if_true, decide_True]
    exact set_bit6_bits c hc k

theorem set_final_bits (b : Nat) (hb : b < 256) (val : Int) (k : Nat) :
    ((if val ≠ 0
        then (if b.testBit 5 = true then (b &&& not_ulong (BIT 5)) % 2 ^ 8 else b) ||| BIT 6
        else (if b.testBit 5 = true then (b &&& not_ulong (BIT 5)) % 2 ^ 8 else b) &&&
          not_ulong (BIT 6)) % 2 ^ 8).testBit k =
      (if k = 5 then false else if k = 6 then decide (val ≠ 0) else b.testBit k) := by
  rw [set_level_bits _ (set_curr_state_lt b hb) val k, set_curr_state_bits b hb k]
  by_cases h6 : k = 6
  · subst h6; simp
  · simp [h6]

theorem set_unfold (gc : gpio_chip) (n : Nat) (val : Int) (s : Sys) :
    gpio_fch_set gc n val s =
      spin_unlock
        (iowrite8
          (if val ≠ 0
            then (if (reg_byte s gc n).testBit 5 = true
              then (reg_byte s gc n &&& not_ulong (BIT 5)) % 2 ^ 8 else reg_byte s gc n) ||| BIT 6
            else (if (reg_byte s gc n).testBit 5 = true
              then (reg_byte s gc n &&& not_ulong (BIT 5)) % 2 ^ 8 else reg_byte s gc n) &&&
                not_ulong (BIT 6))
          (reg_addr s gc n)
          (if (reg_byte s gc n).testBit 5 = true
            then iowrite8 ((reg_byte s gc n &&& not_ulong (BIT 5)) % 2 ^ 8) (reg_addr s gc n)
              (emit (Event.ioread8 (reg_addr s gc n) (reg_byte s gc n)) (spin_lock s))
            else emit (Event.ioread8 (reg_addr s gc n) (reg_byte s gc n)) (spin_lock s))) := by
  by_cases h : (reg_byte s gc n).testBit 5 = true
  · rw [set_of_input gc n val s h]; simp only [h, if_true]
  · rw [set_of_output gc n val s (by simpa using h)]
    have h' : (reg_byte s gc n).testBit 5 = false := by simpa using h
    simp [h']

theorem set_gpio_ba (gc : gpio_chip) (n : Nat) (val : Int) (s : Sys) :
    (gpio_fch_set gc n val s).gpio_ba = s.gpio_ba := by
  rw [set_unfold]
  by_cases h : (reg_byte s gc n).testBit 5 = true <;>
    simp [h, spin_unlock, spin_lock, emit, iowrite8]

theorem set_mem (gc : gpio_chip) (n : Nat) (val : Int) (s : Sys) (a : Nat) :
    (gpio_fch_set gc n val s).mem a =
      (if a = reg_addr s gc n then
        (if val ≠ 0
          then (if (reg_byte s gc n).testBit 5 = true
            then (reg_byte s gc n &&& not_ulong (BIT 5)) % 2 ^ 8 else reg_byte s gc n) ||| BIT 6
          else (if (reg_byte s gc n).testBit 5 = true
            then (reg_byte s gc n &&& not_ulong (BIT 5)) % 2 ^ 8 else reg_byte s gc n) &&&
              not_ulong (BIT 6)) % 2 ^ 8
      else s.mem a) := by
  rw [set_unfold]
  by_cases h : (reg_byte s gc n).testBit 5 = true <;> by_cases ha : a = reg_addr s gc n <;>
    simp [h, ha, spin_unlock, spin_lock, emit, iowrite8]

theorem set_reg_addr (gc gc' : gpio_chip) (n n' : Nat) (val : Int) (s : Sys) :
    reg_addr (gpio_fch_set gc n val s) gc' n' = reg_addr s gc' n' := by
  unfold reg_addr
  rw [set_gpio_ba]

theorem set_reg_byte_bits (gc : gpio_chip) (n : Nat) (val : Int) (s : Sys) (k : Nat) :
    (reg_byte (gpio_fch_set gc n val s) gc n).testBit k =
      (if k = 5 then false else if k = 6 then decide (val ≠ 0)
        else (reg_byte s gc n).testBit k) := by
  have e : reg_byte (gpio_fch_set gc n val s) gc n =
      (gpio_fch_set gc n val s).mem (reg_addr s gc n) % 2 ^ 8 := by
    unfold reg_byte
    rw [set_reg_addr]
  rw [e, set_mem, if_pos rfl, byte_mod]
  exact set_final_bits _ (byte_lt _) val k

/-! ## Reading and writing one line -/

/-- C8: for every register byte `b` of the line, `gpio_fch_get` returns bit 7 of `b` when
bit 5 of `b` is set and bit 6 of `b` when bit 5 is clear; the result is 0 or 1; the call
issues the one register read and no register write, and leaves the memory unchanged. -/
theorem gpio_fch_get_level (gc : gpio_chip) (gpio_num : Nat) (s : Sys) :
    (gpio_fch_get gc gpio_num s).1 =
        (if (reg_byte s gc gpio_num).testBit 5
          then (if (reg_byte s gc gpio_num).testBit 7 then 1 else 0)
          else (if (reg_byte s gc gpio_num).testBit 6 then 1 else 0)) ∧
      ((gpio_fch_get gc gpio_num s).1 = 0 ∨ (gpio_fch_get gc gpio_num s).1 = 1) ∧
      (gpio_fch_get gc gpio_num s).2.mem = s.mem ∧
      (gpio_fch_get gc gpio_num s).2.trace =
        s.trace ++ [Event.ioread8 (reg_addr s gc gpio_num) (reg_byte s gc gpio_num)] ∧
      writes (new_events s (gpio_fch_get gc gpio_num s).2) = [] := by
  refine ⟨get_value gc gpio_num s, ?_, rfl, rfl, ?_⟩
  · rw [get_value]
    cases (reg_byte s gc gpio_num).testBit 5 <;> cases (reg_byte s gc gpio_num).testBit 6 <;>
      cases (reg_byte s gc gpio_num).testBit 7 <;> simp
  · simp [get_unfold, new_events, emit, writes]

/-- C2: whatever byte the register of a line holds, after `gpio_fch_set` with level `val`
on memory that stores what is written, bit 5 of the register is clear (the line is an output)
and `gpio_fch_get` of the same line returns 1 when `val` is non-zero and 0 when it is zero. -/
theorem gpio_fch_set_then_get (gc : gpio_chip) (gpio_num : Nat) (val : Int) (s : Sys) :
    (reg_byte (gpio_fch_set gc gpio_num val s) gc gpio_num).testBit 5 = false ∧
      (gpio_fch_get gc gpio_num (gpio_fch_set gc gpio_num val s)).1 =
        (if val ≠ 0 then 1 else 0) := by
  have h5 := set_reg_byte_bits gc gpio_num val s 5
  have h6 := set_reg_byte_bits gc gpio_num val s 6
  simp only [if_true] at h5
  simp only [show (6 : Nat) ≠ 5 by decide, if_false, if_true] at h6
  refine ⟨h5, ?_⟩
  rw [get_value, h5, h6]
  by_cases hv : val = 0 <;> simp [hv]

/-- C10: `gpio_fch_set` issues one register write when bit 5 of the register byte `b` is
clear and two when it is set.  In the second case the first write is `b` with only bit 5
cleared.  In both cases the last write has bit 5 clear, bit 6 equal to the requested level and
every other bit equal to that of `b`; it is issued whatever bit 6 of `b` is. -/
theorem gpio_fch_set_writes (gc : gpio_chip) (gpio_num : Nat) (val : Int) (s : Sys) :
    ∃ w0 w : Nat,
      (∀ k, w0.testBit k = (if k = 5 then false else (reg_byte s gc gpio_num).testBit k)) ∧
      (∀ k, w.testBit k =
        (if k = 5 then false else if k = 6 then decide (val ≠ 0)
          else (reg_byte s gc gpio_num).testBit k)) ∧
      (gpio_fch_set gc gpio_num val s).trace =
        s.trace ++
          (if (reg_byte s gc gpio_num).testBit 5 = true then
            [Event.spin_lock,
              Event.ioread8 (reg_addr s gc gpio_num) (reg_byte s gc gpio_num),
              Event.iowrite8 w0 (reg_addr s gc gpio_num),
              Event.iowrite8 w (reg_addr s gc gpio_num),
              Event.spin_unlock]
          else
            [Event.spin_lock,
              Event.ioread8 (reg_addr s gc gpio_num) (reg_byte s gc gpio_num),
              Event.iowrite8 w (reg_addr s gc gpio_num),
              Event.spin_unlock]) ∧
      writes (new_events s (gpio_fch_set gc gpio_num val s)) =
        (if (reg_byte s gc gpio_num).testBit 5 = true then
          [(w0, reg_addr s gc gpio_num), (w, reg_addr s gc gpio_num)]
        else [(w, reg_addr s gc gpio_num)]) := by
  refine ⟨(reg_byte s gc gpio_num &&& not_ulong (BIT 5)) % 2 ^ 8,
    (if val ≠ 0
      then (if (reg_byte s gc gpio_num).testBit 5 = true
        then (reg_byte s gc gpio_num &&& not_ulong (BIT 5)) % 2 ^ 8
        else reg_byte s gc gpio_num) ||| BIT 6
      else (if (reg_byte s gc gpio_num).testBit 5 = true
        then (reg_byte s gc gpio_num &&& not_ulong (BIT 5)) % 2 ^ 8
        else reg_byte s gc gpio_num) &&& not_ulong (BIT 6)) % 2 ^ 8,
    clear_bit5_bits _ (byte_lt _), set_final_bits (reg_byte s gc gpio_num) (byte_lt _) val,
    ?_, ?_⟩
  · rw [set_unfold]
    by_cases h : (reg_byte s gc gpio_num).testBit 5 = true
    · simp [h, spin_unlock, spin_lock, emit, iowrite8]
    · have h' : (reg_byte s gc gpio_num).testBit 5 = false := by simpa using h
      simp [h', spin_unlock, spin_lock, emit, iowrite8]
  · rw [set_unfold]
    by_cases h : (reg_byte s gc gpio_num).testBit 5 = true
    · simp [h, spin_unlock, spin_lock, emit, iowrite8, new_events, writes]
    · have h' : (reg_byte s gc gpio_num).testBit 5 = false := by simpa using h
      simp [h', spin_unlock, spin_lock, emit, iowrite8, new_events, writes]

/-- C3: `gpio_fch_direction_in` and `gpio_fch_direction_out` return 0 and write the register
of the line exactly when bit 5 of its byte `b` differs from the requested direction (set for
input, clear for output).  When it does not differ, the call only reads and the memory is
unchanged; when it differs, the call issues exactly one write, of a byte that has bit 5 at the
requested value and every other bit equal to that of `b`. -/
theorem gpio_fch_direction_writes (gc : gpio_chip) (gpio_num : Nat) (val : Int) (s : Sys) :
    (gpio_fch_direction_in gc gpio_num s).1 = 0 ∧
    (gpio_fch_direction_out gc gpio_num val s).1 = 0 ∧
    (if (reg_byte s gc gpio_num).testBit 5 = true then
      (gpio_fch_direction_in gc gpio_num s).2.trace =
          s.trace ++ [Event.spin_lock,
            Event.ioread8 (reg_addr s gc gpio_num) (reg_byte s gc gpio_num),
            Event.spin_unlock] ∧
        (gpio_fch_direction_in gc gpio_num s).2.mem = s.mem
    else
      ∃ w : Nat,
        (∀ k, w.testBit k = (if k = 5 then true else (reg_byte s gc gpio_num).testBit k)) ∧
        (gpio_fch_direction_in gc gpio_num s).2.trace =
          s.trace ++ [Event.spin_lock,
            Event.ioread8 (reg_addr s gc gpio_num) (reg_byte s gc gpio_num),
            Event.iowrite8 w (reg_addr s gc gpio_num),
            Event.spin_unlock] ∧
        (gpio_fch_direction_in gc gpio_num s).2.mem (reg_addr s gc gpio_num) = w) ∧
    (if (reg_byte s gc gpio_num).testBit 5 = false then
      (gpio_fch_direction_out gc gpio_num val s).2.trace =
          s.trace ++ [Event.spin_lock,
            Event.ioread8 (reg_addr s gc gpio_num) (reg_byte s gc gpio_num),
            Event.spin_unlock] ∧
        (gpio_fch_direction_out gc gpio_num val s).2.mem = s.mem
    else
      ∃ w : Nat,
        (∀ k, w.testBit k = (if k = 5 then false else (reg_byte s gc gpio_num).testBit k)) ∧
        (gpio_fch_direction_out gc gpio_num val s).2.trace =
          s.trace ++ [Event.spin_lock,
            Event.ioread8 (reg_addr s gc gpio_num) (reg_byte s gc gpio_num),
            Event.iowrite8 w (reg_addr s gc gpio_num),
            Event.spin_unlock] ∧
        (gpio_fch_direction_out gc gpio_num val s).2.mem (reg_addr s gc gpio_num) = w) := by
  rw [direction_in_unfold, direction_out_unfold]
  refine ⟨rfl, rfl, ?_, ?_⟩
  · by_cases h : (reg_byte s gc gpio_num).testBit 5 = true
    · simp [h, spin_unlock, spin_lock, emit]
    · have h' : (reg_byte s gc gpio_num).testBit 5 = false := by simpa using h
      rw [if_neg h]
      refine ⟨(reg_byte s gc gpio_num ||| BIT 5) % 2 ^ 8, set_bit5_bits _ (byte_lt _), ?_, ?_⟩
      · simp [h', spin_unlock, spin_lock, emit, iowrite8]
      · simp [h', spin_unlock, spin_lock, emit, iowrite8]
  · by_cases h : (reg_byte s gc gpio_num).testBit 5 = true
    · have h' : ¬ (reg_byte s gc gpio_num).testBit 5 = false := by simp [h]
      rw [if_neg h']
      refine ⟨(reg_byte s gc gpio_num &&& not_ulong (BIT 5)) % 2 ^ 8,
        clear_bit5_bits _ (byte_lt _), ?_, ?_⟩
      · simp [h, spin_unlock, spin_lock, emit, iowrite8]
      · simp [h, spin_unlock, spin_lock, emit, iowrite8]
    · have h' : (reg_byte s gc gpio_num).testBit 5 = false := by simpa using h
      simp [h', spin_unlock, spin_lock, emit]

/-! ## Locality of the line operations -/

theorem gpio_offset_of_lt (gc : gpio_chip) (i : Nat) (h : gc.base + i < 2 ^ 32) :
    gpio_offset gc i = gc.base + i := by
  unfold gpio_offset
  rw [Nat.add_comm i gc.base, Nat.mod_eq_of_lt h]

theorem run_sets_gpio_ba (ws : List LevelWrite) (s : Sys) :
    (run_sets ws s).gpio_ba = s.gpio_ba := by
  induction ws generalizing s with
  | nil => rfl
  | cons w ws ih => rw [run_sets, ih, set_gpio_ba]

theorem run_sets_untouched (ws : List LevelWrite) (s : Sys) (off : Nat)
    (hnone : last_level ws off = none) :
    (run_sets ws s).mem (s.gpio_ba + off) = s.mem (s.gpio_ba + off) := by
  induction ws generalizing s with
  | nil => rfl
  | cons w ws ih =>
    rw [last_level] at hnone
    cases hl : last_level ws off with
    | some v => rw [hl] at hnone; exact Option.noConfusion hnone
    | none =>
      rw [hl] at hnone
      have hne : gpio_offset w.gc w.gpio_num ≠ off := by
        intro e
        simp [e] at hnone
      have h1 := ih (gpio_fch_set w.gc w.gpio_num w.val s) hl
      rw [set_gpio_ba] at h1
      rw [run_sets, h1, set_mem]
      have : s.gpio_ba + off ≠ reg_addr s w.gc w.gpio_num := by
        unfold reg_addr
        omega
      rw [if_neg this]

theorem run_sets_last (ws : List LevelWrite) (s : Sys) (off : Nat) (v : Int)
    (hsome : last_level ws off = some v) :
    ((run_sets ws s).mem (s.gpio_ba + off) % 2 ^ 8).testBit 5 = false ∧
      ((run_sets ws s).mem (s.gpio_ba + off) % 2 ^ 8).testBit 6 = decide (v ≠ 0) := by
  induction ws generalizing s with
  | nil => rw [last_level] at hsome; exact Option.noConfusion hsome
  | cons w ws ih =>
    rw [last_level] at hsome
    cases hl : last_level ws off with
    | some v' =>
      rw [hl] at hsome
      have hv : v' = v := by simpa using hsome
      have h1 := ih (gpio_fch_set w.gc w.gpio_num w.val s) (hv ▸ hl)
      rw [set_gpio_ba] at h1
      rw [run_sets]
      exact h1
    | none =>
      rw [hl] at hsome
      by_cases e : gpio_offset w.gc w.gpio_num = off
      · simp only [e, if_true, Option.some.injEq] at hsome
        have h1 := run_sets_untouched ws (gpio_fch_set w.gc w.gpio_num w.val s) off hl
        rw [set_gpio_ba] at h1
        have ha : s.gpio_ba + off = reg_addr s w.gc w.gpio_num := by
          unfold reg_addr
          rw [e]
        have hb5 := set_reg_byte_bits w.gc w.gpio_num w.val s 5
        have hb6 := set_reg_byte_bits w.gc w.gpio_num w.val s 6
        simp only [if_true] at hb5
        simp only [show (6 : Nat) ≠ 5 by decide, if_false, if_true] at hb6
        unfold reg_byte at hb5 hb6
        rw [set_reg_addr, ← ha] at hb5 hb6
        rw [run_sets, h1, hb5, hb6, hsome]
        exact ⟨rfl, rfl⟩
      · simp [e] at hsome

/-- C9: `gpio_fch_get`, `gpio_fch_set`, `gpio_fch_direction_in` and `gpio_fch_direction_out`
on line `i` of a bank with base `B` access the register at the absolute offset the driver
computes from `B` and `i` and no other, and leave every other byte of memory unchanged; that
offset is `B + i` whenever `B + i` fits the 32-bit `unsigned` line number, as it does for
every line of every declared bank.  Consequently, after any sequence of level writes, a
register no write addressed is unchanged, and a register some write addressed has bit 5 clear
and bit 6 at the level of the last write that addressed it, which `gpio_fch_get` returns. -/
theorem line_ops_touch_own_register (gc : gpio_chip) (i : Nat) (val : Int) (s : Sys) :
    (gc.base + i < 2 ^ 32 → gpio_offset gc i = gc.base + i) ∧
    (∀ t ∈ [(gpio_fch_get gc i s).2, gpio_fch_set gc i val s,
          (gpio_fch_direction_in gc i s).2, (gpio_fch_direction_out gc i val s).2],
        touched (new_events s t) ≠ [] ∧
        (∀ x ∈ touched (new_events s t), x = s.gpio_ba + gpio_offset gc i) ∧
        (∀ x, x ≠ s.gpio_ba + gpio_offset gc i → t.mem x = s.mem x)) ∧
    (∀ ws : List LevelWrite,
        (last_level ws (gpio_offset gc i) = none →
          (run_sets ws s).mem (s.gpio_ba + gpio_offset gc i) =
            s.mem (s.gpio_ba + gpio_offset gc i)) ∧
        (∀ v, last_level ws (gpio_offset gc i) = some v →
          (reg_byte (run_sets ws s) gc i).testBit 5 = false ∧
          (reg_byte (run_sets ws s) gc i).testBit 6 = decide (v ≠ 0) ∧
          (gpio_fch_get gc i (run_sets ws s)).1 = (if v ≠ 0 then 1 else 0))) := by
  have ha : reg_addr s gc i = s.gpio_ba + gpio_offset gc i := rfl
  refine ⟨gpio_offset_of_lt gc i, ?_, ?_⟩
  · intro t ht
    simp only [List.mem_cons, List.mem_singleton, List.not_mem_nil, or_false] at ht
    rw [← ha]
    rcases ht with rfl | rfl | rfl | rfl
    · simp [get_unfold, new_events, emit, touched]
    · rw [set_unfold]
      by_cases h5 : (reg_byte s gc i).testBit 5 = true
      · simp only [h5, if_true]
        refine ⟨?_, ?_, ?_⟩
        · simp [spin_unlock, spin_lock, emit, iowrite8, new_events, touched]
        · simp [spin_unlock, spin_lock, emit, iowrite8, new_events, touched]
        · intro x hx
          simp [spin_unlock, spin_lock, emit, iowrite8, hx]
      · have h5' : (reg_byte s gc i).testBit 5 = false := by simpa using h5
        simp only [h5', Bool.false_eq_true, if_false]
        refine ⟨?_, ?_, ?_⟩
        · simp [spin_unlock, spin_lock, emit, iowrite8, new_events, touched]
        · simp [spin_unlock, spin_lock, emit, iowrite8, new_events, touched]
        · intro x hx
          simp [spin_unlock, spin_lock, emit, iowrite8, hx]
    · rw [direction_in_unfold]
      by_cases h5 : (reg_byte s gc i).testBit 5 = true
      · simp [h5, spin_unlock, spin_lock, emit, new_events, touched]
      · have h5' : (reg_byte s gc i).testBit 5 = false := by simpa using h5
        simp only [h5', if_true]
        refine ⟨?_, ?_, ?_⟩
        · simp [spin_unlock, spin_lock, emit, iowrite8, new_events, touched]
        · simp [spin_unlock, spin_lock, emit, iowrite8, new_events, touched]
        · intro x hx
          simp [spin_unlock, spin_lock, emit, iowrite8, hx]
    · rw [direction_out_unfold]
      by_cases h5 : (reg_byte s gc i).testBit 5 = true
      · simp only [h5, if_true]
        refine ⟨?_, ?_, ?_⟩
        · simp [spin_unlock, spin_lock, emit, iowrite8, new_events, touched]
        · simp [spin_unlock, spin_lock, emit, iowrite8, new_events, touched]
        · intro x hx
          simp [spin_unlock, spin_lock, emit, iowrite8, hx]
      · have h5' : (reg_byte s gc i).testBit 5 = false := by simpa using h5
        simp [h5', spin_unlock, spin_lock, emit, new_events, touched]
  · intro ws
    refine ⟨run_sets_untouched ws s _, ?_⟩
    intro v hv
    have hb : reg_byte (run_sets ws s) gc i =
        (run_sets ws s).mem (s.gpio_ba + gpio_offset gc i) % 2 ^ 8 := by
      unfold reg_byte reg_addr
      rw [run_sets_gpio_ba]
    have hl := run_sets_last ws s _ v hv
    rw [← hb] at hl
    refine ⟨hl.1, hl.2, ?_⟩
    rw [get_value, hl.1, hl.2]
    by_cases hv0 : v = 0 <;> simp [hv0]

/-- Witness of C9: bank 128 maps line 22 to offset 150 and line 0 to offset 128; after the
writes (bank 128, line 22) := 1, (bank 0, line 3) := 0, (bank 128, line 22) := 0,
(bank 160, line 5) := 1, line 22 of bank 128 reads 0 and line 5 of bank 160 reads 1. -/
theorem line_ops_touch_own_register_witness :
    gpio_offset fch_gpio_chip128 22 = 128 + 22 ∧ gpio_offset fch_gpio_chip128 0 = 128 + 0 ∧
    (gpio_fch_get fch_gpio_chip128 22
      (run_sets [⟨fch_gpio_chip128, 22, 1⟩, ⟨fch_gpio_chip0, 3, 0⟩, ⟨fch_gpio_chip128, 22, 0⟩,
        ⟨fch_gpio_chip160, 5, 1⟩] sys_ok)).1 = 0 ∧
    (gpio_fch_get fch_gpio_chip160 5
      (run_sets [⟨fch_gpio_chip128, 22, 1⟩, ⟨fch_gpio_chip0, 3, 0⟩, ⟨fch_gpio_chip128, 22, 0⟩,
        ⟨fch_gpio_chip160, 5, 1⟩] sys_ok)).1 = 1 :=
  ⟨(line_ops_touch_own_register fch_gpio_chip128 22 0 sys_ok).1 (by decide),
    (line_ops_touch_own_register fch_gpio_chip128 0 0 sys_ok).1 (by decide),
    (((line_ops_touch_own_register fch_gpio_chip128 22 0 sys_ok).2.2
      [⟨fch_gpio_chip128, 22, 1⟩, ⟨fch_gpio_chip0, 3, 0⟩, ⟨fch_gpio_chip128, 22, 0⟩,
        ⟨fch_gpio_chip160, 5, 1⟩]).2 0 (by decide)).2.2,
    (((line_ops_touch_own_register fch_gpio_chip160 5 0 sys_ok).2.2
      [⟨fch_gpio_chip128, 22, 1⟩, ⟨fch_gpio_chip0, 3, 0⟩, ⟨fch_gpio_chip128, 22, 0⟩,
        ⟨fch_gpio_chip160, 5, 1⟩]).2 1 (by decide)).2.2⟩

/-! ## The banks -/

/-- C7: for each of the three declared banks `(0, 68)`, `(128, 23)`, `(160, 69)` and every
local index `i` below the bank's line count, the absolute register offset is `base + i` and
is below 256, the size of the mapped window; and two in-range lines with the same offset are
the same line of the same bank. -/
theorem banks_in_window_and_disjoint :
    banks = [⟨0, 68⟩, ⟨128, 23⟩, ⟨160, 69⟩] ∧
    (∀ gc ∈ banks, ∀ i < gc.ngpio,
      gpio_offset gc i = gc.base + i ∧ gpio_offset gc i < FCH_GPIO_SPACE_SIZE) ∧
    (∀ gc1 ∈ banks, ∀ gc2 ∈ banks, ∀ i1 < gc1.ngpio, ∀ i2 < gc2.ngpio,
      gpio_offset gc1 i1 = gpio_offset gc2 i2 → gc1 = gc2 ∧ i1 = i2) := by
  refine ⟨rfl, ?_, ?_⟩
  · intro gc hgc i hi
    simp only [banks, List.mem_cons, List.mem_singleton, List.not_mem_nil, or_false] at hgc
    rcases hgc with rfl | rfl | rfl <;>
      simp only [fch_gpio_chip0, fch_gpio_chip128, fch_gpio_chip160, gpio_offset,
        FCH_GPIO_SPACE_SIZE] at hi ⊢ <;> omega
  · intro gc1 h1 gc2 h2 i1 hi1 i2 hi2 he
    simp only [banks, List.mem_cons, List.mem_singleton, List.not_mem_nil, or_false] at h1 h2
    rcases h1 with rfl | rfl | rfl <;> rcases h2 with rfl | rfl | rfl <;>
      simp only [fch_gpio_chip0, fch_gpio_chip128, fch_gpio_chip160, gpio_offset] at hi1 hi2 he <;>
      first
        | exact ⟨rfl, by omega⟩
        | (exfalso; omega)

/-- Witness of C7: the last line of the last bank, line 68 of bank 160, has offset 228, inside
the 256-byte window; the disjointness statement is applied to that line. -/
theorem banks_in_window_and_disjoint_witness :
    (gpio_offset fch_gpio_chip160 68 = 160 + 68 ∧
      gpio_offset fch_gpio_chip160 68 < FCH_GPIO_SPACE_SIZE) ∧
    (gpio_offset fch_gpio_chip160 68 = gpio_offset fch_gpio_chip160 68 →
      fch_gpio_chip160 = fch_gpio_chip160 ∧ 68 = 68) :=
  ⟨banks_in_window_and_disjoint.2.1 fch_gpio_chip160 (by decide) 68 (by decide),
    banks_in_window_and_disjoint.2.2 fch_gpio_chip160 (by decide) fch_gpio_chip160 (by decide)
      68 (by decide) 68 (by decide)⟩

/-! ## Discovery of the MMIO base -/

theorem pm_base_mask (d3 d2 d1 : Nat) (h3 : d3 < 256) (h2 : d2 < 256) (h1 : d1 < 256) :
    (d3 * 2 ^ 24 + d2 * 2 ^ 16 + d1 * 2 ^ 8) &&& 0xFFFFFF00 =
      d3 * 2 ^ 24 + d2 * 2 ^ 16 + d1 * 2 ^ 8 := by
  have e1 : d3 * 2 ^ 24 + d2 * 2 ^ 16 + d1 * 2 ^ 8 = (d3 * 2 ^ 16 + d2 * 2 ^ 8 + d1) <<< 8 := by
    rw [Nat.shiftLeft_eq]; omega
  have e2 : (0xFFFFFF00 : Nat) = (2 ^ 24 - 1) <<< 8 := by decide
  have hm : d3 * 2 ^ 16 + d2 * 2 ^ 8 + d1 < 2 ^ 24 := by omega
  rw [e1, e2]
  generalize d3 * 2 ^ 16 + d2 * 2 ^ 8 + d1 = m at hm
  apply Nat.eq_of_testBit_eq
  intro j
  rw [Nat.testBit_land, Nat.testBit_shiftLeft, Nat.testBit_shiftLeft, Nat.testBit_two_pow_sub_one]
  by_cases hj : j - 8 < 24
  · simp only [hj, decide_True, Bool.and_true, Bool.and_self_left, Bool.and_assoc]
    cases decide (j ≥ 8) <;> cases m.testBit (j - 8) <;> rfl
  · have : m.testBit (j - 8) = false :=
      Nat.testBit_lt_two_pow (lt_of_lt_of_le hm (Nat.pow_le_pow_right (by norm_num) (by omega)))
    simp [this]

theorem pm_accumulate (d3 d2 d1 : Nat) (h3 : d3 < 256) (h2 : d2 < 256) (h1 : d1 < 256) :
    ((((((d3 <<< 8) % 2 ^ 32 + d2) % 2 ^ 32) <<< 8) % 2 ^ 32 + d1) % 2 ^ 32) <<< 8 % 2 ^ 32 =
      d3 * 2 ^ 24 + d2 * 2 ^ 16 + d1 * 2 ^ 8 := by
  simp only [Nat.shiftLeft_eq]
  omega

theorem read_pm_reg_run (addr : Nat) (s : Sys) :
    read_pm_reg addr s =
      (s.pm_data ((addr + 3) % 2 ^ 8) % 2 ^ 8 * 2 ^ 24 +
          s.pm_data ((addr + 2) % 2 ^ 8) % 2 ^ 8 * 2 ^ 16 +
          s.pm_data ((addr + 1) % 2 ^ 8) % 2 ^ 8 * 2 ^ 8,
        { s with
          pm_index := (addr + 1) % 2 ^ 8
          trace := s.trace ++
            [Event.outb ((addr + 3) % 2 ^ 8) 0xcd6,
              Event.inb 0xcd7 (s.pm_data ((addr + 3) % 2 ^ 8) % 2 ^ 8),
              Event.outb ((addr + 2) % 2 ^ 8) 0xcd6,
              Event.inb 0xcd7 (s.pm_data ((addr + 2) % 2 ^ 8) % 2 ^ 8),
              Event.outb ((addr + 1) % 2 ^ 8) 0xcd6,
              Event.inb 0xcd7 (s.pm_data ((addr + 1) % 2 ^ 8) % 2 ^ 8)] }) := by
  have a3 : (addr % 2 ^ 8 + 3) % 2 ^ 8 = (addr + 3) % 2 ^ 8 := by omega
  have a2 : (addr % 2 ^ 8 + 2) % 2 ^ 8 = (addr + 2) % 2 ^ 8 := by omega
  have a1 : (addr % 2 ^ 8 + 1) % 2 ^ 8 = (addr + 1) % 2 ^ 8 := by omega
  have hv := pm_accumulate (s.pm_data ((addr + 3) % 2 ^ 8) % 2 ^ 8)
    (s.pm_data ((addr + 2) % 2 ^ 8) % 2 ^ 8) (s.pm_data ((addr + 1) % 2 ^ 8) % 2 ^ 8)
    (byte_lt _) (byte_lt _) (byte_lt _)
  unfold read_pm_reg outb inb emit
  simp only [SB800_IO_PM_INDEX_REG, SB800_IO_PM_DATA_REG, if_true, a3, a2, a1, hv,
    List.append_assoc, List.singleton_append, List.cons_append, List.nil_append]

/-- C1 (amended): `read_pm_reg(a)` selects the index values `a+3`, `a+2`, `a+1` (as bytes,
modulo 256) on the index port, in that order, each followed by one read of the data port, and
never selects `a` itself; it returns the 32-bit value
`data[a+3] * 2^24 + data[a+2] * 2^16 + data[a+1] * 2^8`, whose low byte is zero.  With the data
port answering 0x12, 0x34, 0x56 for the index values 0x25, 0x26, 0x27, `read_pm_reg(0x24)`
returns 0x56341200. -/
theorem read_pm_reg_value (addr : Nat) (s : Sys) :
    (read_pm_reg addr s).1 =
        s.pm_data ((addr + 3) % 2 ^ 8) % 2 ^ 8 * 2 ^ 24 +
        s.pm_data ((addr + 2) % 2 ^ 8) % 2 ^ 8 * 2 ^ 16 +
        s.pm_data ((addr + 1) % 2 ^ 8) % 2 ^ 8 * 2 ^ 8 ∧
    (read_pm_reg addr s).2.trace =
        s.trace ++
          [Event.outb ((addr + 3) % 2 ^ 8) SB800_IO_PM_INDEX_REG,
            Event.inb SB800_IO_PM_DATA_REG (s.pm_data ((addr + 3) % 2 ^ 8) % 2 ^ 8),
            Event.outb ((addr + 2) % 2 ^ 8) SB800_IO_PM_INDEX_REG,
            Event.inb SB800_IO_PM_DATA_REG (s.pm_data ((addr + 2) % 2 ^ 8) % 2 ^ 8),
            Event.outb ((addr + 1) % 2 ^ 8) SB800_IO_PM_INDEX_REG,
            Event.inb SB800_IO_PM_DATA_REG (s.pm_data ((addr + 1) % 2 ^ 8) % 2 ^ 8)] ∧
    ((addr + 3) % 2 ^ 8 ≠ addr % 2 ^ 8 ∧ (addr + 2) % 2 ^ 8 ≠ addr % 2 ^ 8 ∧
        (addr + 1) % 2 ^ 8 ≠ addr % 2 ^ 8) ∧
    (s.pm_data 0x25 % 2 ^ 8 = 0x12 → s.pm_data 0x26 % 2 ^ 8 = 0x34 →
        s.pm_data 0x27 % 2 ^ 8 = 0x56 → (read_pm_reg 0x24 s).1 = 0x56341200) := by
  refine ⟨?_, ?_, ⟨by omega, by omega, by omega⟩, ?_⟩
  · rw [read_pm_reg_run]
  · rw [read_pm_reg_run]; rfl
  · intro h1 h2 h3
    rw [read_pm_reg_run]
    simp only [show (0x24 + 3) % 2 ^ 8 = 0x27 by decide, show (0x24 + 2) % 2 ^ 8 = 0x26 by decide,
      show (0x24 + 1) % 2 ^ 8 = 0x25 by decide, h1, h2, h3]
    decide

/-- Witness of C1 (amended): on the machine `sys_ok`, whose data port answers 0x12, 0x34, 0x56
for the index values 0x25, 0x26, 0x27, `read_pm_reg(0x24)` returns 0x56341200. -/
theorem read_pm_reg_value_witness : (read_pm_reg 0x24 sys_ok).1 = 0x56341200 :=
  (read_pm_reg_value 0x24 sys_ok).2.2.2 (by decide) (by decide) (by decide)

/-- Counterexample to C1: with the data port answering 0x12, 0x34, 0x56 for the index values
0x25, 0x26, 0x27, `read_pm_reg(0x24)` is 0x56341200; it is neither 0x00123456 nor
`data[a+1] * 2^16 + data[a+2] * 2^8 + data[a+3]`. -/
theorem read_pm_reg_not_big_endian :
    sys_ok.pm_data 0x25 = 0x12 ∧ sys_ok.pm_data 0x26 = 0x34 ∧ sys_ok.pm_data 0x27 = 0x56 ∧
    (read_pm_reg 0x24 sys_ok).1 = 0x56341200 ∧
    (read_pm_reg 0x24 sys_ok).1 ≠ 0x00123456 ∧
    (read_pm_reg 0x24 sys_ok).1 ≠
      sys_ok.pm_data (0x24 + 1) * 2 ^ 16 + sys_ok.pm_data (0x24 + 2) * 2 ^ 8 +
        sys_ok.pm_data (0x24 + 3) := by
  decide

/-! ## Attach and detach -/

theorem pm_base_mask_lit (x y z : Nat) :
    (x % 256 * 16777216 + y % 256 * 65536 + z % 256 * 256) &&& 4294967040 =
      x % 256 * 16777216 + y % 256 * 65536 + z % 256 * 256 := by
  have h := pm_base_mask (x % 256) (y % 256) (z % 256) (by omega) (by omega) (by omega)
  simpa using h

/-- The run of `gpio_fch_probe`, by the outcome of each kernel service. -/
theorem probe_run (s : Sys) :
    gpio_fch_probe s =
      if s.request_region_ok = false then
        (-EBUSY, { s with trace := s.trace ++ [Event.request_region 0xcd6 2 false] })
      else if s.request_mem_region_ok = false then
        (-EBUSY,
          { s with
            pm_index := 0x25
            acpimmioaddr := s.pm_data 0x27 % 2 ^ 8 * 2 ^ 24 + s.pm_data 0x26 % 2 ^ 8 * 2 ^ 16 +
              s.pm_data 0x25 % 2 ^ 8 * 2 ^ 8
            trace := s.trace ++ discovery_events s ++
              [Event.request_mem_region (gpio_space_start s) 0x100 false] })
      else if s.ioremap_ptr = 0 then
        (-ENOMEM,
          { s with
            pm_index := 0x25
            acpimmioaddr := s.pm_data 0x27 % 2 ^ 8 * 2 ^ 24 + s.pm_data 0x26 % 2 ^ 8 * 2 ^ 16 +
              s.pm_data 0x25 % 2 ^ 8 * 2 ^ 8
            gpio_ba := 0
            trace := s.trace ++ discovery_events s ++
              [Event.request_mem_region (gpio_space_start s) 0x100 true,
                Event.ioremap (gpio_space_start s) 0x100 0,
                Event.release_mem_region (gpio_space_start s) 0x100] })
      else if s.gpiochip_add_ret fch_gpio_chip0 < 0 then
        (s.gpiochip_add_ret fch_gpio_chip0,
          { s with
            pm_index := 0x25
            acpimmioaddr := s.pm_data 0x27 % 2 ^ 8 * 2 ^ 24 + s.pm_data 0x26 % 2 ^ 8 * 2 ^ 16 +
              s.pm_data 0x25 % 2 ^ 8 * 2 ^ 8
            gpio_ba := s.ioremap_ptr
            trace := s.trace ++ discovery_events s ++
              [Event.request_mem_region (gpio_space_start s) 0x100 true,
                Event.ioremap (gpio_space_start s) 0x100 s.ioremap_ptr,
                Event.gpiochip_add fch_gpio_chip0 (s.gpiochip_add_ret fch_gpio_chip0),
                Event.iounmap s.ioremap_ptr,
                Event.release_mem_region (gpio_space_start s) 0x100] })
      else if s.gpiochip_add_ret fch_gpio_chip128 < 0 then
        (s.gpiochip_add_ret fch_gpio_chip128,
          { s with
            pm_index := 0x25
            acpimmioaddr := s.pm_data 0x27 % 2 ^ 8 * 2 ^ 24 + s.pm_data 0x26 % 2 ^ 8 * 2 ^ 16 +
              s.pm_data 0x25 % 2 ^ 8 * 2 ^ 8
            gpio_ba := s.ioremap_ptr
            trace := s.trace ++ discovery_events s ++
              [Event.request_mem_region (gpio_space_start s) 0x100 true,
                Event.ioremap (gpio_space_start s) 0x100 s.ioremap_ptr,
                Event.gpiochip_add fch_gpio_chip0 (s.gpiochip_add_ret fch_gpio_chip0),
                Event.gpiochip_add fch_gpio_chip128 (s.gpiochip_add_ret fch_gpio_chip128),
                Event.gpiochip_remove fch_gpio_chip0,
                Event.iounmap s.ioremap_ptr,
                Event.release_mem_region (gpio_space_start s) 0x100] })
      else if s.gpiochip_add_ret fch_gpio_chip160 < 0 then
        (s.gpiochip_add_ret fch_gpio_chip160,
          { s with
            pm_index := 0x25
            acpimmioaddr := s.pm_data 0x27 % 2 ^ 8 * 2 ^ 24 + s.pm_data 0x26 % 2 ^ 8 * 2 ^ 16 +
              s.pm_data 0x25 % 2 ^ 8 * 2 ^ 8
            gpio_ba := s.ioremap_ptr
            trace := s.trace ++ discovery_events s ++
              [Event.request_mem_region (gpio_space_start s) 0x100 true,
                Event.ioremap (gpio_space_start s) 0x100 s.ioremap_ptr,
                Event.gpiochip_add fch_gpio_chip0 (s.gpiochip_add_ret fch_gpio_chip0),
                Event.gpiochip_add fch_gpio_chip128 (s.gpiochip_add_ret fch_gpio_chip128),
                Event.gpiochip_add fch_gpio_chip160 (s.gpiochip_add_ret fch_gpio_chip160),
                Event.gpiochip_remove fch_gpio_chip128,
                Event.gpiochip_remove fch_gpio_chip0,
                Event.iounmap s.ioremap_ptr,
                Event.release_mem_region (gpio_space_start s) 0x100] })
      else
        (0,
          { s with
            pm_index := 0x25
            acpimmioaddr := s.pm_data 0x27 % 2 ^ 8 * 2 ^ 24 + s.pm_data 0x26 % 2 ^ 8 * 2 ^ 16 +
              s.pm_data 0x25 % 2 ^ 8 * 2 ^ 8
            gpio_ba := s.ioremap_ptr
            trace := s.trace ++ discovery_events s ++
              [Event.request_mem_region (gpio_space_start s) 0x100 true,
                Event.ioremap (gpio_space_start s) 0x100 s.ioremap_ptr,
                Event.gpiochip_add fch_gpio_chip0 (s.gpiochip_add_ret fch_gpio_chip0),
                Event.gpiochip_add fch_gpio_chip128 (s.gpiochip_add_ret fch_gpio_chip128),
                Event.gpiochip_add fch_gpio_chip160 (s.gpiochip_add_ret fch_gpio_chip160)] }) := by
  have hm := pm_base_mask_lit (s.pm_data 39) (s.pm_data 38) (s.pm_data 37)
  have hstart : gpio_space_start s =
      (s.pm_data 39 % 256 * 16777216 + s.pm_data 38 % 256 * 65536 + s.pm_data 37 % 256 * 256 +
        256) % 4294967296 := by
    simp [gpio_space_start]
  unfold gpio_fch_probe
  by_cases hio : s.request_region_ok = false
  · simp [hio, request_region, emit, SB800_IO_PM_INDEX_REG, SB800_IO_PM_SIZE,
      SB800_IO_PM_DATA_REG]
  have hio' : s.request_region_ok = true := by simpa using hio
  by_cases hmem : s.request_mem_region_ok = false
  · simp only [hio', request_region, read_pm_reg_run, release_region, request_mem_region, hmem,
      emit, SB800_IO_PM_INDEX_REG, SB800_IO_PM_SIZE, SB800_IO_PM_DATA_REG,
      SB800_PM_ACPI_MMIO_EN, FCH_GPIO_SPACE_OFFSET, FCH_GPIO_SPACE_SIZE]
    simp [hm, hstart, discovery_events]
  have hmem' : s.request_mem_region_ok = true := by simpa using hmem
  by_cases hmap : s.ioremap_ptr = 0
  · simp only [hio', request_region, read_pm_reg_run, release_region, request_mem_region, hmem',
      ioremap, hmap, err_no_ioremap, release_mem_region,
      emit, SB800_IO_PM_INDEX_REG, SB800_IO_PM_SIZE, SB800_IO_PM_DATA_REG,
      SB800_PM_ACPI_MMIO_EN, FCH_GPIO_SPACE_OFFSET, FCH_GPIO_SPACE_SIZE]
    simp [hm, hstart, discovery_events]
  by_cases h0 : s.gpiochip_add_ret fch_gpio_chip0 < 0
  · simp only [hio', request_region, read_pm_reg_run, release_region, request_mem_region, hmem',
      ioremap, hmap, err_no_ioremap, release_mem_region, gpiochip_add, h0,
      err_no_gpiochip0_add, iounmap,
      emit, SB800_IO_PM_INDEX_REG, SB800_IO_PM_SIZE, SB800_IO_PM_DATA_REG,
      SB800_PM_ACPI_MMIO_EN, FCH_GPIO_SPACE_OFFSET, FCH_GPIO_SPACE_SIZE]
    simp [hm, hstart, discovery_events]
  by_cases h1 : s.gpiochip_add_ret fch_gpio_chip128 < 0
  · simp only [hio', request_region, read_pm_reg_run, release_region, request_mem_region, hmem',
      ioremap, hmap, err_no_ioremap, release_mem_region, gpiochip_add, h0, h1,
      err_no_gpiochip0_add, err_no_gpiochip128_add, iounmap, gpiochip_remove,
      emit, SB800_IO_PM_INDEX_REG, SB800_IO_PM_SIZE, SB800_IO_PM_DATA_REG,
      SB800_PM_ACPI_MMIO_EN, FCH_GPIO_SPACE_OFFSET, FCH_GPIO_SPACE_SIZE]
    simp [hm, hstart, discovery_events]
  by_cases h2 : s.gpiochip_add_ret fch_gpio_chip160 < 0
  · simp only [hio', request_region, read_pm_reg_run, release_region, request_mem_region, hmem',
      ioremap, hmap, err_no_ioremap, release_mem_region, gpiochip_add, h0, h1, h2,
      err_no_gpiochip0_add, err_no_gpiochip128_add, err_no_gpiochip160_add, iounmap,
      gpiochip_remove,
      emit, SB800_IO_PM_INDEX_REG, SB800_IO_PM_SIZE, SB800_IO_PM_DATA_REG,
      SB800_PM_ACPI_MMIO_EN, FCH_GPIO_SPACE_OFFSET, FCH_GPIO_SPACE_SIZE]
    simp [hm, hstart, discovery_events]
  · simp only [hio', request_region, read_pm_reg_run, release_region, request_mem_region, hmem',
      ioremap, hmap, gpiochip_add, h0, h1, h2,
      emit, SB800_IO_PM_INDEX_REG, SB800_IO_PM_SIZE, SB800_IO_PM_DATA_REG,
      SB800_PM_ACPI_MMIO_EN, FCH_GPIO_SPACE_OFFSET, FCH_GPIO_SPACE_SIZE]
    simp [hm, hstart, discovery_events]

theorem new_events_of_append (s t : Sys) (l : List Event) (h : t.trace = s.trace ++ l) :
    new_events s t = l := by
  unfold new_events
  rw [h, List.drop_left]

/-- The events of `gpio_fch_probe`, by the outcome of each kernel service. -/
theorem probe_events (s : Sys) :
    new_events s (gpio_fch_probe s).2 =
      if s.request_region_ok = false then
        [Event.request_region 0xcd6 2 false]
      else discovery_events s ++
        (if s.request_mem_region_ok = false then
          [Event.request_mem_region (gpio_space_start s) 0x100 false]
        else if s.ioremap_ptr = 0 then
          [Event.request_mem_region (gpio_space_start s) 0x100 true,
            Event.ioremap (gpio_space_start s) 0x100 0,
            Event.release_mem_region (gpio_space_start s) 0x100]
        else if s.gpiochip_add_ret fch_gpio_chip0 < 0 then
          [Event.request_mem_region (gpio_space_start s) 0x100 true,
            Event.ioremap (gpio_space_start s) 0x100 s.ioremap_ptr,
            Event.gpiochip_add fch_gpio_chip0 (s.gpiochip_add_ret fch_gpio_chip0),
            Event.iounmap s.ioremap_ptr,
            Event.release_mem_region (gpio_space_start s) 0x100]
        else if s.gpiochip_add_ret fch_gpio_chip128 < 0 then
          [Event.request_mem_region (gpio_space_start s) 0x100 true,
            Event.ioremap (gpio_space_start s) 0x100 s.ioremap_ptr,
            Event.gpiochip_add fch_gpio_chip0 (s.gpiochip_add_ret fch_gpio_chip0),
            Event.gpiochip_add fch_gpio_chip128 (s.gpiochip_add_ret fch_gpio_chip128),
            Event.gpiochip_remove fch_gpio_chip0,
            Event.iounmap s.ioremap_ptr,
            Event.release_mem_region (gpio_space_start s) 0x100]
        else if s.gpiochip_add_ret fch_gpio_chip160 < 0 then
          [Event.request_mem_region (gpio_space_start s) 0x100 true,
            Event.ioremap (gpio_space_start s) 0x100 s.ioremap_ptr,
            Event.gpiochip_add fch_gpio_chip0 (s.gpiochip_add_ret fch_gpio_chip0),
            Event.gpiochip_add fch_gpio_chip128 (s.gpiochip_add_ret fch_gpio_chip128),
            Event.gpiochip_add fch_gpio_chip160 (s.gpiochip_add_ret fch_gpio_chip160),
            Event.gpiochip_remove fch_gpio_chip128,
            Event.gpiochip_remove fch_gpio_chip0,
            Event.iounmap s.ioremap_ptr,
            Event.release_mem_region (gpio_space_start s) 0x100]
        else
          [Event.request_mem_region (gpio_space_start s) 0x100 true,
            Event.ioremap (gpio_space_start s) 0x100 s.ioremap_ptr,
            Event.gpiochip_add fch_gpio_chip0 (s.gpiochip_add_ret fch_gpio_chip0),
            Event.gpiochip_add fch_gpio_chip128 (s.gpiochip_add_ret fch_gpio_chip128),
            Event.gpiochip_add fch_gpio_chip160 (s.gpiochip_add_ret fch_gpio_chip160)]) := by
  apply new_events_of_append
  rw [probe_run]
  by_cases hio : s.request_region_ok = false
  · simp [hio]
  by_cases hmem : s.request_mem_region_ok = false
  · simp [hio, hmem]
  by_cases hmap : s.ioremap_ptr = 0
  · simp [hio, hmem, hmap]
  by_cases h0 : s.gpiochip_add_ret fch_gpio_chip0 < 0
  · simp [hio, hmem, hmap, h0]
  by_cases h1 : s.gpiochip_add_ret fch_gpio_chip128 < 0
  · simp [hio, hmem, hmap, h0, h1]
  by_cases h2 : s.gpiochip_add_ret fch_gpio_chip160 < 0
  · simp [hio, hmem, hmap, h0, h1, h2]
  · simp [hio, hmem, hmap, h0, h1, h2]

/-- The value `gpio_fch_probe` returns, by the outcome of each kernel service. -/
theorem probe_ret (s : Sys) :
    (gpio_fch_probe s).1 =
      if s.request_region_ok = false then -EBUSY
      else if s.request_mem_region_ok = false then -EBUSY
      else if s.ioremap_ptr = 0 then -ENOMEM
      else if s.gpiochip_add_ret fch_gpio_chip0 < 0 then s.gpiochip_add_ret fch_gpio_chip0
      else if s.gpiochip_add_ret fch_gpio_chip128 < 0 then s.gpiochip_add_ret fch_gpio_chip128
      else if s.gpiochip_add_ret fch_gpio_chip160 < 0 then s.gpiochip_add_ret fch_gpio_chip160
      else 0 := by
  rw [probe_run]
  by_cases hio : s.request_region_ok = false
  · simp [hio]
  by_cases hmem : s.request_mem_region_ok = false
  · simp [hio, hmem]
  by_cases hmap : s.ioremap_ptr = 0
  · simp [hio, hmem, hmap]
  by_cases h0 : s.gpiochip_add_ret fch_gpio_chip0 < 0
  · simp [hio, hmem, hmap, h0]
  by_cases h1 : s.gpiochip_add_ret fch_gpio_chip128 < 0
  · simp [hio, hmem, hmap, h0, h1]
  by_cases h2 : s.gpiochip_add_ret fch_gpio_chip160 < 0
  · simp [hio, hmem, hmap, h0, h1, h2]
  · simp [hio, hmem, hmap, h0, h1, h2]

/-- C5: a probe that fails before bank registration retains nothing.  If the I/O-port
reservation fails, the probe returns `-EBUSY` and its only call is the failed reservation.  If
the memory-region reservation fails, the probe returns `-EBUSY` after the discovery phase,
which has released the I/O ports, and makes no mapping.  If the mapping fails, the probe
returns `-ENOMEM` after releasing the memory-region reservation.  In each case no bank is
registered and the releases are exactly the acquisitions. -/
theorem probe_early_failure (s : Sys) :
    (s.request_region_ok = false →
      (gpio_fch_probe s).1 = -EBUSY ∧
      new_events s (gpio_fch_probe s).2 =
        [Event.request_region SB800_IO_PM_INDEX_REG SB800_IO_PM_SIZE false]) ∧
    (s.request_region_ok = true → s.request_mem_region_ok = false →
      (gpio_fch_probe s).1 = -EBUSY ∧
      new_events s (gpio_fch_probe s).2 =
        discovery_events s ++
          [Event.request_mem_region (gpio_space_start s) FCH_GPIO_SPACE_SIZE false]) ∧
    (s.request_region_ok = true → s.request_mem_region_ok = true → s.ioremap_ptr = 0 →
      (gpio_fch_probe s).1 = -ENOMEM ∧
      new_events s (gpio_fch_probe s).2 =
        discovery_events s ++
          [Event.request_mem_region (gpio_space_start s) FCH_GPIO_SPACE_SIZE true,
            Event.ioremap (gpio_space_start s) FCH_GPIO_SPACE_SIZE 0,
            Event.release_mem_region (gpio_space_start s) FCH_GPIO_SPACE_SIZE]) ∧
    (s.request_region_ok = false ∨ s.request_mem_region_ok = false ∨ s.ioremap_ptr = 0 →
      (∀ gc ret, Event.gpiochip_add gc ret ∉ new_events s (gpio_fch_probe s).2) ∧
      releases (new_events s (gpio_fch_probe s).2) =
        acquisitions (new_events s (gpio_fch_probe s).2)) := by
  rw [probe_ret, probe_events]
  refine ⟨?_, ?_, ?_, ?_⟩
  · intro hio
    simp [hio, SB800_IO_PM_INDEX_REG, SB800_IO_PM_SIZE, SB800_IO_PM_DATA_REG]
  · intro hio hmem
    simp [hio, hmem, FCH_GPIO_SPACE_SIZE]
  · intro hio hmem hmap
    simp [hio, hmem, hmap, FCH_GPIO_SPACE_SIZE]
  · intro h
    by_cases hio : s.request_region_ok = false
    · simp [hio, releases, acquisitions]
    by_cases hmem : s.request_mem_region_ok = false
    · simp [hio, hmem, discovery_events, releases, acquisitions]
    have hmap : s.ioremap_ptr = 0 := by
      rcases h with h | h | h
      · exact absurd h hio
      · exact absurd h hmem
      · exact h
    simp [hio, hmem, hmap, discovery_events, releases, acquisitions]

/-- Witness of C5: on `sys_io_busy` the probe returns `-16` after the failed port reservation
alone; on `sys_mem_busy` it returns `-16` with the ports released and no mapping; on
`sys_no_map` it returns `-12` after releasing the memory region at 0x56341300. -/
theorem probe_early_failure_witness :
    ((gpio_fch_probe sys_io_busy).1 = -16 ∧
      new_events sys_io_busy (gpio_fch_probe sys_io_busy).2 =
        [Event.request_region 0xcd6 2 false]) ∧
    ((gpio_fch_probe sys_mem_busy).1 = -16 ∧
      new_events sys_mem_busy (gpio_fch_probe sys_mem_busy).2 =
        [Event.request_region 0xcd6 2 true,
          Event.outb 0x27 0xcd6, Event.inb 0xcd7 0x56,
          Event.outb 0x26 0xcd6, Event.inb 0xcd7 0x34,
          Event.outb 0x25 0xcd6, Event.inb 0xcd7 0x12,
          Event.release_region 0xcd6 2,
          Event.request_mem_region 0x56341300 0x100 false]) ∧
    ((gpio_fch_probe sys_no_map).1 = -12 ∧
      new_events sys_no_map (gpio_fch_probe sys_no_map).2 =
        [Event.request_region 0xcd6 2 true,
          Event.outb 0x27 0xcd6, Event.inb 0xcd7 0x56,
          Event.outb 0x26 0xcd6, Event.inb 0xcd7 0x34,
          Event.outb 0x25 0xcd6, Event.inb 0xcd7 0x12,
          Event.release_region 0xcd6 2,
          Event.request_mem_region 0x56341300 0x100 true,
          Event.ioremap 0x56341300 0x100 0,
          Event.release_mem_region 0x56341300 0x100]) ∧
    releases (new_events sys_no_map (gpio_fch_probe sys_no_map).2) =
      acquisitions (new_events sys_no_map (gpio_fch_probe sys_no_map).2) :=
  ⟨(probe_early_failure sys_io_busy).1 (by decide),
    (probe_early_failure sys_mem_busy).2.1 (by decide) (by decide),
    (probe_early_failure sys_no_map).2.2.1 (by decide) (by decide) (by decide),
    ((probe_early_failure sys_no_map).2.2.2 (Or.inr (Or.inr (by decide)))).2⟩

/-- C4: when the port reservation, the memory-region reservation and the mapping succeed, the
banks before bank `k` of the registration order 0, 128, 160 register successfully and the
registration of bank `k` fails with `e < 0`, the probe returns `e`.  Its calls after the
mapping are: the registrations of the banks up to and including `k`, in order; the
unregistrations of the banks before `k`, in reverse order; the unmapping; the release of the
memory region.  No bank after `k` is registered, and everything acquired is released. -/
theorem probe_rollback (s : Sys) (k : Nat) (gc : gpio_chip) (e : Int)
    (hio : s.request_region_ok = true) (hmem : s.request_mem_region_ok = true)
    (hmap : s.ioremap_ptr ≠ 0) (hk : banks[k]? = some gc)
    (hprev : ∀ g ∈ banks.take k, ¬ s.gpiochip_add_ret g < 0)
    (hfail : s.gpiochip_add_ret gc = e) (he : e < 0) :
    (gpio_fch_probe s).1 = e ∧
    new_events s (gpio_fch_probe s).2 =
      discovery_events s ++
        [Event.request_mem_region (gpio_space_start s) FCH_GPIO_SPACE_SIZE true,
          Event.ioremap (gpio_space_start s) FCH_GPIO_SPACE_SIZE s.ioremap_ptr] ++
        (banks.take (k + 1)).map (fun g => Event.gpiochip_add g (s.gpiochip_add_ret g)) ++
        (banks.take k).reverse.map Event.gpiochip_remove ++
        [Event.iounmap s.ioremap_ptr,
          Event.release_mem_region (gpio_space_start s) FCH_GPIO_SPACE_SIZE] ∧
    acquisitions (new_events s (gpio_fch_probe s).2) =
      [Resource.io_region SB800_IO_PM_INDEX_REG SB800_IO_PM_SIZE,
        Resource.mem_region (gpio_space_start s) FCH_GPIO_SPACE_SIZE,
        Resource.mapping s.ioremap_ptr] ++ (banks.take k).map Resource.bank ∧
    releases (new_events s (gpio_fch_probe s).2) =
      [Resource.io_region SB800_IO_PM_INDEX_REG SB800_IO_PM_SIZE] ++
        ((banks.take k).map Resource.bank).reverse ++
        [Resource.mapping s.ioremap_ptr,
          Resource.mem_region (gpio_space_start s) FCH_GPIO_SPACE_SIZE] := by
  have hio' : ¬ s.request_region_ok = false := by simp [hio]
  have hmem' : ¬ s.request_mem_region_ok = false := by simp [hmem]
  rw [probe_ret, probe_events]
  rcases k with _ | _ | _ | k
  · have hgc : fch_gpio_chip0 = gc := by simpa [banks] using hk
    subst hgc
    subst hfail
    simp [hio, hmem, hmap, he, banks, discovery_events, acquisitions, releases,
      FCH_GPIO_SPACE_SIZE, SB800_IO_PM_INDEX_REG, SB800_IO_PM_SIZE, SB800_IO_PM_DATA_REG]
  · have hgc : fch_gpio_chip128 = gc := by simpa [banks] using hk
    subst hgc
    subst hfail
    have h0 : ¬ s.gpiochip_add_ret fch_gpio_chip0 < 0 := hprev _ (by simp [banks])
    simp [hio, hmem, hmap, he, h0, banks, discovery_events, acquisitions, releases,
      FCH_GPIO_SPACE_SIZE, SB800_IO_PM_INDEX_REG, SB800_IO_PM_SIZE, SB800_IO_PM_DATA_REG]
  · have hgc : fch_gpio_chip160 = gc := by simpa [banks] using hk
    subst hgc
    subst hfail
    have h0 : ¬ s.gpiochip_add_ret fch_gpio_chip0 < 0 := hprev _ (by simp [banks])
    have h1 : ¬ s.gpiochip_add_ret fch_gpio_chip128 < 0 := hprev _ (by simp [banks])
    simp [hio, hmem, hmap, he, h0, h1, banks, discovery_events, acquisitions, releases,
      FCH_GPIO_SPACE_SIZE, SB800_IO_PM_INDEX_REG, SB800_IO_PM_SIZE, SB800_IO_PM_DATA_REG]
  · simp [banks] at hk

/-- Witness of C4: on `sys_fail160`, where the registration of bank 160 fails with `-16`, the
probe returns `-16`, having unregistered bank 128, then bank 0, then unmapped, then released
the memory region. -/
theorem probe_rollback_witness :
    (gpio_fch_probe sys_fail160).1 = -16 ∧
    releases (new_events sys_fail160 (gpio_fch_probe sys_fail160).2) =
      [Resource.io_region 0xcd6 2, Resource.bank fch_gpio_chip128, Resource.bank fch_gpio_chip0,
        Resource.mapping 0x4000, Resource.mem_region 0x56341300 0x100] :=
  ⟨(probe_rollback sys_fail160 2 fch_gpio_chip160 (-16) (by decide) (by decide) (by decide)
      (by decide) (by decide) (by decide) (by decide)).1,
    (probe_rollback sys_fail160 2 fch_gpio_chip160 (-16) (by decide) (by decide) (by decide)
      (by decide) (by decide) (by decide) (by decide)).2.2.2⟩

theorem probe_success (s : Sys) (h : (gpio_fch_probe s).1 = 0) :
    s.request_region_ok = true ∧ s.request_mem_region_ok = true ∧ s.ioremap_ptr ≠ 0 ∧
      ¬ s.gpiochip_add_ret fch_gpio_chip0 < 0 ∧ ¬ s.gpiochip_add_ret fch_gpio_chip128 < 0 ∧
      ¬ s.gpiochip_add_ret fch_gpio_chip160 < 0 := by
  rw [probe_ret] at h
  by_cases hio : s.request_region_ok = false
  · simp [hio, EBUSY] at h
  by_cases hmem : s.request_mem_region_ok = false
  · simp [hio, hmem, EBUSY] at h
  by_cases hmap : s.ioremap_ptr = 0
  · simp [hio, hmem, hmap, ENOMEM] at h
  by_cases h0 : s.gpiochip_add_ret fch_gpio_chip0 < 0
  · simp [hio, hmem, hmap, h0] at h
    omega
  by_cases h1 : s.gpiochip_add_ret fch_gpio_chip128 < 0
  · simp [hio, hmem, hmap, h0, h1] at h
    omega
  by_cases h2 : s.gpiochip_add_ret fch_gpio_chip160 < 0
  · simp [hio, hmem, hmap, h0, h1, h2] at h
    omega
  exact ⟨by simpa using hio, by simpa using hmem, hmap, h0, h1, h2⟩

theorem remove_events_after_probe (s : Sys) (h : (gpio_fch_probe s).1 = 0) :
    new_events (gpio_fch_probe s).2 (gpio_fch_remove (gpio_fch_probe s).2) =
      [Event.gpiochip_remove fch_gpio_chip160, Event.gpiochip_remove fch_gpio_chip128,
        Event.gpiochip_remove fch_gpio_chip0, Event.iounmap s.ioremap_ptr,
        Event.release_mem_region (gpio_space_start s) 0x100] := by
  obtain ⟨hio, hmem, hmap, h0, h1, h2⟩ := probe_success s h
  have hm := pm_base_mask_lit (s.pm_data 39) (s.pm_data 38) (s.pm_data 37)
  have hstart : gpio_space_start s =
      (s.pm_data 39 % 256 * 16777216 + s.pm_data 38 % 256 * 65536 + s.pm_data 37 % 256 * 256 +
        256) % 4294967296 := by
    simp [gpio_space_start]
  apply new_events_of_append
  rw [probe_run]
  simp [hio, hmem, hmap, h0, h1, h2, gpio_fch_remove, gpiochip_remove, iounmap,
    release_mem_region, emit, hstart, FCH_GPIO_SPACE_OFFSET, FCH_GPIO_SPACE_SIZE]

/-- C6: for a probe that returns 0, followed by a remove: the probe reserves and releases the
I/O ports, then reserves the memory region, maps it and registers banks 0, 128, 160 in that
order; the remove unregisters banks 160, 128, 0 in that order, then unmaps the pointer the
mapping returned, then releases the memory region with the address and size that were
reserved.  The releases of the remove are the acquisitions the probe still holds, in reverse
order; over the whole run no resource is acquired twice and the releases are a permutation of
the acquisitions. -/
theorem probe_remove_symmetric (s : Sys) (h : (gpio_fch_probe s).1 = 0) :
    new_events s (gpio_fch_probe s).2 =
      discovery_events s ++
        [Event.request_mem_region (gpio_space_start s) FCH_GPIO_SPACE_SIZE true,
          Event.ioremap (gpio_space_start s) FCH_GPIO_SPACE_SIZE s.ioremap_ptr,
          Event.gpiochip_add fch_gpio_chip0 (s.gpiochip_add_ret fch_gpio_chip0),
          Event.gpiochip_add fch_gpio_chip128 (s.gpiochip_add_ret fch_gpio_chip128),
          Event.gpiochip_add fch_gpio_chip160 (s.gpiochip_add_ret fch_gpio_chip160)] ∧
    new_events (gpio_fch_probe s).2 (gpio_fch_remove (gpio_fch_probe s).2) =
      [Event.gpiochip_remove fch_gpio_chip160, Event.gpiochip_remove fch_gpio_chip128,
        Event.gpiochip_remove fch_gpio_chip0, Event.iounmap s.ioremap_ptr,
        Event.release_mem_region (gpio_space_start s) FCH_GPIO_SPACE_SIZE] ∧
    acquisitions (new_events s (gpio_fch_probe s).2) =
      [Resource.io_region SB800_IO_PM_INDEX_REG SB800_IO_PM_SIZE,
        Resource.mem_region (gpio_space_start s) FCH_GPIO_SPACE_SIZE,
        Resource.mapping s.ioremap_ptr, Resource.bank fch_gpio_chip0,
        Resource.bank fch_gpio_chip128, Resource.bank fch_gpio_chip160] ∧
    releases (new_events s (gpio_fch_probe s).2) =
      [Resource.io_region SB800_IO_PM_INDEX_REG SB800_IO_PM_SIZE] ∧
    acquisitions (new_events (gpio_fch_probe s).2 (gpio_fch_remove (gpio_fch_probe s).2)) = [] ∧
    releases (new_events (gpio_fch_probe s).2 (gpio_fch_remove (gpio_fch_probe s).2)) =
      [Resource.mem_region (gpio_space_start s) FCH_GPIO_SPACE_SIZE,
        Resource.mapping s.ioremap_ptr, Resource.bank fch_gpio_chip0,
        Resource.bank fch_gpio_chip128, Resource.bank fch_gpio_chip160].reverse ∧
    (acquisitions (new_events s (gpio_fch_probe s).2 ++
      new_events (gpio_fch_probe s).2 (gpio_fch_remove (gpio_fch_probe s).2))).Nodup ∧
    (releases (new_events s (gpio_fch_probe s).2 ++
      new_events (gpio_fch_probe s).2 (gpio_fch_remove (gpio_fch_probe s).2))).Perm
      (acquisitions (new_events s (gpio_fch_probe s).2 ++
        new_events (gpio_fch_probe s).2 (gpio_fch_remove (gpio_fch_probe s).2))) := by
  obtain ⟨hio, hmem, hmap, h0, h1, h2⟩ := probe_success s h
  rw [remove_events_after_probe s h, probe_events]
  simp only [hio, hmem, hmap, h0, h1, h2, Bool.true_eq_false, if_false, FCH_GPIO_SPACE_SIZE,
    SB800_IO_PM_INDEX_REG, SB800_IO_PM_SIZE, SB800_IO_PM_DATA_REG, discovery_events,
    List.cons_append, List.nil_append, acquisitions, releases, List.reverse_cons,
    List.reverse_nil, true_and, Nat.reduceSub, Nat.reduceAdd]
  refine ⟨?_, ?_⟩
  · simp [fch_gpio_chip0, fch_gpio_chip128, fch_gpio_chip160]
  · exact List.Perm.cons _
      (List.reverse_perm [Resource.mem_region (gpio_space_start s) 256,
        Resource.mapping s.ioremap_ptr, Resource.bank fch_gpio_chip0,
        Resource.bank fch_gpio_chip128, Resource.bank fch_gpio_chip160])

/-- Witness of C6: on `sys_ok` the probe returns 0 and the remove that follows unregisters
banks 160, 128, 0, unmaps 0x4000 and releases the region at 0x56341300 that the probe
reserved. -/
theorem probe_remove_symmetric_witness :
    (gpio_fch_probe sys_ok).1 = 0 ∧
    new_events sys_ok (gpio_fch_probe sys_ok).2 =
      [Event.request_region 0xcd6 2 true,
        Event.outb 0x27 0xcd6, Event.inb 0xcd7 0x56,
        Event.outb 0x26 0xcd6, Event.inb 0xcd7 0x34,
        Event.outb 0x25 0xcd6, Event.inb 0xcd7 0x12,
        Event.release_region 0xcd6 2,
        Event.request_mem_region 0x56341300 0x100 true,
        Event.ioremap 0x56341300 0x100 0x4000,
        Event.gpiochip_add fch_gpio_chip0 0,
        Event.gpiochip_add fch_gpio_chip128 0,
        Event.gpiochip_add fch_gpio_chip160 0] ∧
    new_events (gpio_fch_probe sys_ok).2 (gpio_fch_remove (gpio_fch_probe sys_ok).2) =
      [Event.gpiochip_remove fch_gpio_chip160, Event.gpiochip_remove fch_gpio_chip128,
        Event.gpiochip_remove fch_gpio_chip0, Event.iounmap 0x4000,
        Event.release_mem_region 0x56341300 0x100] :=
  ⟨by decide, (probe_remove_symmetric sys_ok (by decide)).1,
    (probe_remove_symmetric sys_ok (by decide)).2.1⟩

end GpioFch
